import Mathlib

/-!
Shallow embedding of the insight pipeline of the `clarity` backend
(`backend/services/insight_stats.py`, `backend/services/insight_llm.py`,
`backend/routers/logs.py`) together with proofs about the frozen claims.

Modelling conventions:
* Python floats are modelled as exact rationals (`ℚ`).  `round(x, n)` is
  modelled as rounding half-to-even on the exact rational value, which is the
  decimal idealisation of Python's float rounding; every numeric value the
  pipeline stores has at most three decimal digits, where the two behaviours
  agree except on ties introduced by binary representation error.
* Python strings are Lean `String`s (logically a list of unicode scalars,
  matching Python's code-point view).
* Python dicts keyed by strings are association lists kept in insertion
  order, matching the iteration order of Python dicts.
* `re` scanning (`findall`/`search`/`split`) is implemented by structurally
  recursive scanners over the character list that implement exactly the
  three concrete patterns used by the source.
* Fallible Python code (`KeyError` / `IndexError` paths) returns `Option`.
-/

namespace Clarity

/-! ### Rationals and Python `round` -/

/-- Python `round` to an integer: round half to even on the exact value. -/
def roundHalfEven (q : ℚ) : ℤ :=
  let f : ℤ := q.num.fdiv (q.den : ℤ)
  let r : ℚ := q - (f : ℚ)
  if r < 1/2 then f
  else if (1/2 : ℚ) < r then f + 1
  else if f % 2 = 0 then f else f + 1

/-- Python `round(x, n)` for a nonnegative number `n` of decimal digits. -/
def pyRound (q : ℚ) (n : ℕ) : ℚ :=
  (roundHalfEven (q * (10 : ℚ) ^ n) : ℚ) / (10 : ℚ) ^ n

/-! ### Python number-to-string renderings

`natStr` is Python `str` on a nonnegative int, `intStr` on an int;
`fmt2`/`fmt2s`/`fmt1` model the format specs `:.2f` / `:+.2f` / `:.1f`;
`pyFloatStr` models `str` on a float that carries at most two decimal
digits (the only floats the pipeline prints). -/

/-- One decimal digit as a character. -/
def digitChar : ℕ → Char
  | 0 => '0' | 1 => '1' | 2 => '2' | 3 => '3' | 4 => '4'
  | 5 => '5' | 6 => '6' | 7 => '7' | 8 => '8' | 9 => '9'
  | _ => '*'

/-- Fuelled digit expansion, most significant digit first. -/
def natStrAux : ℕ → ℕ → List Char → List Char
  | 0, _, acc => acc
  | fuel+1, n, acc =>
    if n < 10 then digitChar n :: acc
    else natStrAux fuel (n / 10) (digitChar (n % 10) :: acc)

/-- Python `str` on a nonnegative integer. -/
def natStr (n : ℕ) : String := ⟨natStrAux (n+1) n []⟩

/-- Python `str` on an integer. -/
def intStr (i : ℤ) : String :=
  (if i < 0 then "-" else "") ++ natStr i.natAbs

/-- Two-digit zero-padded rendering of a number below 100. -/
def pad2 (k : ℕ) : String := if k < 10 then "0" ++ natStr k else natStr k

/-- Python `f"{v:.2f}"`. -/
def fmt2 (q : ℚ) : String :=
  let m := roundHalfEven (q * 100)
  (if m < 0 then "-" else "") ++ natStr (m.natAbs / 100) ++ "." ++ pad2 (m.natAbs % 100)

/-- Python `f"{v:+.2f}"`. -/
def fmt2s (q : ℚ) : String :=
  let m := roundHalfEven (q * 100)
  (if m < 0 then "-" else "+") ++ natStr (m.natAbs / 100) ++ "." ++ pad2 (m.natAbs % 100)

/-- Python `f"{v:.1f}"`. -/
def fmt1 (q : ℚ) : String :=
  let m := roundHalfEven (q * 10)
  (if m < 0 then "-" else "") ++ natStr (m.natAbs / 10) ++ "." ++ natStr (m.natAbs % 10)

/-- Python `str` on a float holding at most two decimal digits: shortest
decimal form, with at least one fractional digit. -/
def pyFloatStr (q : ℚ) : String :=
  let m := roundHalfEven (q * 100)
  let a := m.natAbs
  let frac :=
    if a % 100 % 10 = 0 then natStr (a % 100 / 10)
    else if a % 100 < 10 then "0" ++ natStr (a % 100) else natStr (a % 100)
  (if m < 0 then "-" else "") ++ natStr (a / 100) ++ "." ++ frac

/-- Python `q.is_integer()` for a rational. -/
def ratIsInt (q : ℚ) : Bool := q.den = 1

/-! ### Character classes used by the source's regexes -/

/-- `[-+]` in `NUMBER_PATTERN`. -/
def isSignC (c : Char) : Bool := c = '+' || c = '-'

/-- `[.!?]`, the sentence-terminator class of the sentence splitter. -/
def isTermC (c : Char) : Bool := c = '.' || c = '!' || c = '?'

/-- `[a-zA-Z0-9_.-]`, the fact-id class of `CITATION_PATTERN`. -/
def isCiteC (c : Char) : Bool := c.isAlpha || c.isDigit || c = '_' || c = '.' || c = '-'

/-- The lookbehind class `[A-Za-z]` of `NUMBER_PATTERN`, on an optional
preceding character (no preceding character means the lookbehind holds). -/
def isLetterO : Option Char → Bool
  | none => false
  | some c => c.isAlpha

/-! ### NUMBER_PATTERN = `(?<![A-Za-z])[-+]?\d+(?:\.\d+)?%?` -/

/-- Maximal-munch match of the numeric token pattern at the head of the
list; returns the matched characters. -/
def matchNum (l : List Char) : Option (List Char) :=
  let sgn : List Char × List Char :=
    match l with
    | c :: cs => if isSignC c then ([c], cs) else ([], l)
    | [] => ([], [])
  let ds := sgn.2.takeWhile Char.isDigit
  let l2 := sgn.2.dropWhile Char.isDigit
  if ds.isEmpty then none
  else
    let fr : List Char × List Char :=
      match l2 with
      | '.' :: cs =>
        let fs := cs.takeWhile Char.isDigit
        if fs.isEmpty then ([], l2) else ('.' :: fs, cs.dropWhile Char.isDigit)
      | _ => ([], l2)
    let pct : List Char :=
      match fr.2 with
      | '%' :: _ => ['%']
      | _ => []
    some (sgn.1 ++ ds ++ fr.1 ++ pct)

/-- Left-to-right non-overlapping scan of `NUMBER_PATTERN` (`re.findall`).
`skip` counts characters still covered by the last emitted token, `prev`
is the character before the current position (for the lookbehind). -/
def scanNumAux : ℕ → Option Char → List Char → List (List Char)
  | _, _, [] => []
  | skip+1, _, c :: cs => scanNumAux skip (some c) cs
  | 0, prev, c :: cs =>
    if isLetterO prev then scanNumAux 0 (some c) cs
    else
      match matchNum (c :: cs) with
      | some tok => tok :: scanNumAux (tok.length - 1) (some c) cs
      | none => scanNumAux 0 (some c) cs

/-- `NUMBER_PATTERN.findall` on a string, as strings. -/
def numTokens (s : String) : List String :=
  (scanNumAux 0 none s.data).map String.mk

/-- `NUMBER_PATTERN.search(s)` succeeds iff some token is found. -/
def hasNum (s : String) : Bool := !(scanNumAux 0 none s.data).isEmpty

/-! ### CITATION_PATTERN = `\[\[cite:([a-zA-Z0-9_.-]+)\]\]` -/

/-- Match the citation marker at the head of the list, returning the id. -/
def citeAtHead (l : List Char) : Option (List Char) :=
  if "[[cite:".data.isPrefixOf l then
    let r := l.drop 7
    let id := r.takeWhile isCiteC
    let rest := r.dropWhile isCiteC
    if id.isEmpty then none
    else if "]]".data.isPrefixOf rest then some id else none
  else none

/-- Left-to-right non-overlapping scan of `CITATION_PATTERN` (`findall`). -/
def scanCiteAux : ℕ → List Char → List (List Char)
  | _, [] => []
  | skip+1, _ :: cs => scanCiteAux skip cs
  | 0, c :: cs =>
    match citeAtHead (c :: cs) with
    | some id => id :: scanCiteAux (8 + id.length) cs
    | none => scanCiteAux 0 cs

/-- `CITATION_PATTERN.findall` on a string: the captured fact ids. -/
def citeIds (s : String) : List String :=
  (scanCiteAux 0 s.data).map String.mk

/-- `CITATION_PATTERN.search(s)` succeeds iff some marker is found. -/
def hasCite (s : String) : Bool := !(scanCiteAux 0 s.data).isEmpty

/-! ### Sentence splitting: `re.split(r"(?<=[.!?])\s+", message)` -/

/-- The terminator lookbehind on an optional preceding character. -/
def isTermO : Option Char → Bool
  | none => false
  | some c => isTermC c

/-- Raw splitter.  `inBreak` is true while consuming a whitespace run that
started a split; `acc` holds the current part reversed. -/
def sentAux : Bool → Option Char → List Char → List Char → List (List Char)
  | false, _, acc, [] => [acc.reverse]
  | false, prev, acc, c :: cs =>
    if c.isWhitespace && isTermO prev then acc.reverse :: sentAux true (some c) [] cs
    else sentAux false (some c) (c :: acc) cs
  | true, _, acc, [] => [acc.reverse]
  | true, _, _, c :: cs =>
    if c.isWhitespace then sentAux true (some c) [] cs
    else sentAux false (some c) [c] cs

/-- Python `str.strip` on a character list. -/
def stripL (l : List Char) : List Char :=
  ((l.dropWhile Char.isWhitespace).reverse.dropWhile Char.isWhitespace).reverse

/-- `[part.strip() for part in re.split(...) if part.strip()]`. -/
def splitSentences (s : String) : List String :=
  (((sentAux false none [] s.data).map stripL).filter (fun p => !p.isEmpty)).map String.mk

/-! ### Remaining string utilities -/

/-- Is `pat` a contiguous sublist of `l` (Python `pat in s`)? -/
def hasSubL (pat : List Char) : List Char → Bool
  | [] => pat.isEmpty
  | c :: cs => pat.isPrefixOf (c :: cs) || hasSubL pat cs

/-- Python `term in message` on strings. -/
def strContains (s term : String) : Bool := hasSubL term.data s.data

/-- Python `s.lower()` (ASCII case folding suffices for the source's terms). -/
def pyLower (s : String) : String := ⟨s.data.map Char.toLower⟩

/-- Python `s.endswith(t)`. -/
def pyEndsWith (s t : String) : Bool := t.data.isSuffixOf s.data

/-- Python `s.replace(pat, rep)`: leftmost, non-overlapping, all
occurrences.  `skip` counts characters of a replaced occurrence still to
be dropped. -/
def replAux (pat rep : List Char) : ℕ → List Char → List Char
  | _, [] => []
  | skip+1, _ :: cs => replAux pat rep skip cs
  | 0, c :: cs =>
    if pat.isPrefixOf (c :: cs) then rep ++ replAux pat rep (pat.length - 1) cs
    else c :: replAux pat rep 0 cs

/-- Python `s.replace(pat, rep)` on strings (for nonempty `pat`). -/
def pyReplace (s pat rep : String) : String := ⟨replAux pat.data rep.data 0 s.data⟩

/-- Keep-first deduplication (the effect of building a Python `set`). -/
def dedupAux (seen : List String) : List String → List String
  | [] => []
  | x :: xs => if seen.contains x then dedupAux seen xs else x :: dedupAux (x :: seen) xs

/-- Deduplicate, keeping first occurrences. -/
def dedupL (l : List String) : List String := dedupAux [] l

/-- Code-point lexicographic order on character lists (Python `<=`). -/
def lexLe : List Char → List Char → Bool
  | [], _ => true
  | _ :: _, [] => false
  | a :: as, b :: bs => if a = b then lexLe as bs else decide (a < b)

/-- Python `<=` on strings. -/
def strLe (a b : String) : Bool := lexLe a.data b.data

/-- Insert into a `strLe`-sorted list. -/
def insSorted (x : String) : List String → List String
  | [] => [x]
  | y :: ys => if strLe x y then x :: y :: ys else y :: insSorted x ys

/-- Python `sorted` on strings. -/
def sortStrs : List String → List String
  | [] => []
  | x :: xs => insSorted x (sortStrs xs)

/-- Python `", ".join(l)`. -/
def joinComma : List String → String
  | [] => ""
  | [x] => x
  | x :: xs => x ++ ", " ++ joinComma xs

/-! ### Python runtime values

A `PyVal` is a JSON-ish runtime value as it occurs in a response entry.
Python's `isinstance(v, int | float)` is true for `bool` as well, which
`pyNumQ` reflects. -/

inductive PyVal where
  | num (q : ℚ)
  | str (s : String)
  | pybool (b : Bool)
  | dt (iso : String)
  deriving DecidableEq

/-- `isinstance(v, int | float)` (true for bools, which subclass int). -/
def pyIsNum : PyVal → Bool
  | .num _ => true
  | .pybool _ => true
  | _ => false

/-- `float(v)` for a value passing `pyIsNum`. -/
def pyNumQ : PyVal → ℚ
  | .num q => q
  | .pybool b => if b then 1 else 0
  | _ => 0

/-- Python `str(v)` on an optional value (`str(None) = "None"`). -/
def pyStrOfOpt : Option PyVal → String
  | none => "None"
  | some (.str s) => s
  | some (.num q) => pyFloatStr q
  | some (.pybool b) => if b then "True" else "False"
  | some (.dt s) => s

/-! ### Data model (`backend/models/logs.py`) -/

/-- The `value` slot of a `FactDefinition` / `InsightCitation`
(`float | str` in the pydantic model). -/
inductive FactValue where
  | num (q : ℚ)
  | text (s : String)
  deriving DecidableEq

/-- `FactDefinition` (also the shape of `InsightCitation`, whose fields
are copied verbatim from a fact by `InsightCitation(**fact.model_dump())`). -/
structure FactDefinition where
  fact_id : String
  label : String
  value : FactValue
  unit : Option String := none
  window_days : ℕ
  sample_size : Option ℕ := none
  n_good : Option ℕ := none
  n_poor : Option ℕ := none
  method : String
  provenance : String
  source_metric_keys : List String := []
  deriving DecidableEq

/-- `InsightCitation`: same fields as `FactDefinition`. -/
structure InsightCitation where
  fact_id : String
  label : String
  value : FactValue
  unit : Option String := none
  window_days : ℕ
  sample_size : Option ℕ := none
  n_good : Option ℕ := none
  n_poor : Option ℕ := none
  method : String
  provenance : String
  source_metric_keys : List String := []
  deriving DecidableEq

/-- `InsightCitation(**fact.model_dump(mode="json"))`. -/
def citationOfFact (f : FactDefinition) : InsightCitation :=
  ⟨f.fact_id, f.label, f.value, f.unit, f.window_days, f.sample_size,
   f.n_good, f.n_poor, f.method, f.provenance, f.source_metric_keys⟩

/-- `CandidateInsightEvidence`. -/
structure CandidateInsightEvidence where
  insight_id : String
  type : String
  title : String
  behavior : String
  outcome : String
  direction : String
  magnitude : ℚ
  summary : String
  fact_ids : List String
  score : ℚ
  action_hint : String
  deriving DecidableEq

/-- The fact registry: a string-keyed dict in insertion order. -/
abbrev Registry := List (String × FactDefinition)

/-- `registry.get(k)` / `registry[k]` lookup. -/
def regGet (reg : Registry) (k : String) : Option FactDefinition :=
  (reg.find? (fun p => p.1 == k)).map (fun p => p.2)

/-- `registry[k] = v`: overwrite in place, or append. -/
def regSet (reg : Registry) (k : String) (v : FactDefinition) : Registry :=
  if (reg.find? (fun p => p.1 == k)).isSome then
    reg.map (fun p => if p.1 == k then (k, v) else p)
  else reg ++ [(k, v)]

/-- `InsightStatsPayload`. -/
structure InsightStatsPayload where
  window_days : ℕ
  logs_count : ℕ
  date_start : Option String := none
  date_end : Option String := none
  completion_rate : ℚ
  summary_fact_ids : List String := []
  candidate_insights : List CandidateInsightEvidence := []
  fact_registry : Registry := []
  deriving DecidableEq

/-- `LLMInsightDraft`. -/
structure LLMInsightDraft where
  type : String
  message_with_citations : String
  action : Option String := none
  fact_ids_used : List String
  deriving DecidableEq

/-- `LLMInsightResponse`. -/
structure LLMInsightResponse where
  insights : List LLMInsightDraft
  deriving DecidableEq

/-- API-facing `Insight` (optional fields default to `None` in pydantic). -/
structure Insight where
  type : String
  message : String
  confidence : Option String := none
  impact : Option String := none
  action : Option String := none
  citations : Option (List InsightCitation) := none
  source_metric_keys : Option (List String) := none
  deriving DecidableEq

/-- `ValidationResult`. -/
structure ValidationResult where
  valid : Bool
  errors : List String
  deriving DecidableEq

/-! ### `backend/services/insight_llm.py`: validator -/

/-- `SHAMING_TERMS`. -/
def SHAMING_TERMS : List String :=
  ["lazy", "bad", "failure", "weak", "you should have", "your fault"]

/-- `MEDICAL_TERMS`. -/
def MEDICAL_TERMS : List String :=
  ["diagnosis", "disorder", "disease", "clinical", "depression"]

/-- `_normalize_numeric_token`: strip whitespace, drop `%`. -/
def _normalize_numeric_token (t : String) : String :=
  ⟨(stripL t.data).filter (fun c => c ≠ '%')⟩

/-- Python `str(v)` on a fact value (`float | str`). -/
def factValStr : FactValue → String
  | .num q => pyFloatStr q
  | .text s => s

/-- The tokens a single fact contributes to the allowed set: the
two-decimal rounding of its value (integer-rendered when whole) and its
`:.1f` form; text-valued facts contribute none. -/
def factNumericTokens (f : FactDefinition) : List String :=
  match f.value with
  | .num q =>
    let rounded := pyRound q 2
    [if ratIsInt rounded then intStr rounded.num else pyFloatStr rounded, fmt1 rounded]
  | .text _ => []

/-- `_allowed_numeric_tokens`: context tokens plus, per numeric fact, the
two-decimal rounding (integer-rendered when whole) and its `:.1f` form. -/
def _allowed_numeric_tokens (stats : InsightStatsPayload) : List String :=
  [natStr stats.window_days,
   natStr stats.logs_count,
   intStr (roundHalfEven (stats.completion_rate * 100))] ++
  stats.fact_registry.flatMap (fun p => factNumericTokens p.2)

/-- The sentence loop of `validate_llm_response`. -/
def sentenceErrors (idx : ℕ) (allowed : List String) (sentences : List String) : List String :=
  sentences.flatMap (fun sentence =>
    if hasNum sentence && !hasCite sentence then
      ["insights[" ++ natStr idx ++ "] has uncited numeric sentence"]
    else if !hasNum sentence then []
    else
      let sentence_tokens := (numTokens sentence).map _normalize_numeric_token
      let unknown_tokens := sentence_tokens.filter (fun t => !allowed.contains t)
      if unknown_tokens.isEmpty then []
      else ["insights[" ++ natStr idx ++
            "] has numbers not grounded in allowed facts: " ++ joinComma unknown_tokens])

/-- Error accumulation of `validate_llm_response` for one insight. -/
def insightErrors (idx : ℕ) (allowed_fact_ids allowed_numeric : List String)
    (insight : LLMInsightDraft) : List String :=
  let message := insight.message_with_citations
  let cited_ids := citeIds message
  (if cited_ids.isEmpty then ["insights[" ++ natStr idx ++ "] has no citations"] else []) ++
  (let unknown_ids :=
     sortStrs ((dedupL cited_ids).filter (fun id => !allowed_fact_ids.contains id))
   if unknown_ids.isEmpty then []
   else ["insights[" ++ natStr idx ++ "] uses unknown citations: " ++ joinComma unknown_ids]) ++
  (if (dedupL cited_ids).any (fun id => !insight.fact_ids_used.contains id) then
     ["insights[" ++ natStr idx ++ "] cites fact ids not present in fact_ids_used"]
   else []) ++
  (if !(numTokens message).isEmpty && cited_ids.isEmpty then
     ["insights[" ++ natStr idx ++ "] has numeric claims but no citations"]
   else []) ++
  sentenceErrors idx allowed_numeric (splitSentences message) ++
  (if SHAMING_TERMS.any (fun t => strContains (pyLower message) t) then
     ["insights[" ++ natStr idx ++ "] contains shaming language"]
   else []) ++
  (if MEDICAL_TERMS.any (fun t => strContains (pyLower message) t) then
     ["insights[" ++ natStr idx ++ "] contains medical diagnosis language"]
   else [])

/-- The `for idx, insight in enumerate(response.insights)` loop. -/
def errorsGo (allowed_fact_ids allowed_numeric : List String) :
    ℕ → List LLMInsightDraft → List String
  | _, [] => []
  | idx, d :: ds =>
    insightErrors idx allowed_fact_ids allowed_numeric d ++
    errorsGo allowed_fact_ids allowed_numeric (idx+1) ds

/-- `validate_llm_response`. -/
def validate_llm_response (response : LLMInsightResponse) (stats : InsightStatsPayload) :
    ValidationResult :=
  ⟨(errorsGo (stats.fact_registry.map (fun p => p.1))
      (_allowed_numeric_tokens stats) 0 response.insights).isEmpty,
   errorsGo (stats.fact_registry.map (fun p => p.1))
     (_allowed_numeric_tokens stats) 0 response.insights⟩

/-! ### `backend/services/insight_llm.py`: mapping and fallback -/

/-- `map_to_api_insights`. -/
def map_to_api_insights (response : LLMInsightResponse) (stats : InsightStatsPayload) :
    List Insight :=
  response.insights.map (fun draft =>
    let citations := draft.fact_ids_used.filterMap
      (fun fid => (regGet stats.fact_registry fid).map citationOfFact)
    { type := draft.type
      message := draft.message_with_citations
      action := draft.action
      citations := some citations
      source_metric_keys :=
        some (sortStrs (dedupL (citations.flatMap (fun c => c.source_metric_keys)))) })

/-- Python `str(None) = "None"` applied to an optional string field. -/
def optDateStr : Option String → String
  | none => "None"
  | some s => s

/-- The encouragement message of the no-candidate fallback branch. -/
def fallback_tip_message (stats : InsightStatsPayload) : String :=
  "Keep completing your daily surveys to unlock personalized insights. " ++
  "Current completion in the last " ++ natStr stats.window_days ++ " days is " ++
  intStr (roundHalfEven (stats.completion_rate * 100)) ++ "% [[cite:" ++
  ("fact_completion_rate_" ++ natStr stats.window_days ++ "d") ++ "]]."

/-- `next((fid for fid in candidate.fact_ids if fid.endswith("_delta")), candidate.fact_ids[0])`. -/
def fallback_delta_id (f0 : String) (rest : List String) : String :=
  (((f0 :: rest).find? (fun fid => pyEndsWith fid "_delta")).getD f0)

/-- `next((fid for fid in candidate.fact_ids if fid.endswith("_mean_good")), candidate.fact_ids[0])`. -/
def fallback_good_id (f0 : String) (rest : List String) : String :=
  (((f0 :: rest).find? (fun fid => pyEndsWith fid "_mean_good")).getD f0)

/-- `next((fid for fid in candidate.fact_ids if fid.endswith("_mean_poor")), candidate.fact_ids[-1])`. -/
def fallback_poor_id (f0 : String) (rest : List String) : String :=
  (((f0 :: rest).find? (fun fid => pyEndsWith fid "_mean_poor")).getD
    ((f0 :: rest).getLast (by simp)))

/-- The f-string template of the candidate fallback message, before the
`{good}` / `{poor}` substitutions. -/
def fallback_template (stats : InsightStatsPayload) (candidate : CandidateInsightEvidence)
    (f0 : String) (rest : List String) : String :=
  candidate.title ++ " shows a " ++ candidate.direction ++
  " pattern over the last " ++ natStr stats.window_days ++ " days: " ++
  candidate.summary ++ " [[cite:" ++ fallback_delta_id f0 rest ++
  "]] ({good} vs {poor}) [[cite:" ++ fallback_good_id f0 rest ++ "]] [[cite:" ++
  fallback_poor_id f0 rest ++ "]]."

/-- The candidate fallback message after both substitutions. -/
def fallback_message (stats : InsightStatsPayload) (candidate : CandidateInsightEvidence)
    (f0 : String) (rest : List String) (gf pf : FactDefinition) : String :=
  pyReplace (pyReplace (fallback_template stats candidate f0 rest)
    "{good}" (factValStr gf.value)) "{poor}" (factValStr pf.value)

/-- The loop body of `build_deterministic_fallback` for one candidate.
`none` models the `KeyError` / `IndexError` raised when the candidate
references facts that are not in the registry (impossible for payloads
built by the evidence builder). -/
def fallback_candidate_core (stats : InsightStatsPayload)
    (candidate : CandidateInsightEvidence) (f0 : String) (rest : List String) :
    Option Insight :=
    match regGet stats.fact_registry (fallback_good_id f0 rest),
          regGet stats.fact_registry (fallback_poor_id f0 rest) with
    | some gf, some pf =>
      some { type := candidate.type
             message := fallback_message stats candidate f0 rest gf pf
             action := some candidate.action_hint
             citations := some
               ([fallback_good_id f0 rest, fallback_poor_id f0 rest,
                 fallback_delta_id f0 rest].filterMap
                 (fun fid => (regGet stats.fact_registry fid).map citationOfFact))
             source_metric_keys :=
               some (sortStrs (dedupL
                 (([fallback_good_id f0 rest, fallback_poor_id f0 rest,
                    fallback_delta_id f0 rest].filterMap
                    (fun fid => (regGet stats.fact_registry fid).map
                      citationOfFact)).flatMap
                   (fun c => c.source_metric_keys)))) }
    | _, _ => none

/-- The loop body of `build_deterministic_fallback` for one candidate.
`none` models the `KeyError` / `IndexError` raised when the candidate
references facts that are not in the registry (impossible for payloads
built by the evidence builder). -/
def fallback_candidate_insight (stats : InsightStatsPayload)
    (candidate : CandidateInsightEvidence) : Option Insight :=
  match candidate.fact_ids with
  | [] => none
  | f0 :: rest => fallback_candidate_core stats candidate f0 rest

/-- `build_deterministic_fallback`. -/
def build_deterministic_fallback (stats : InsightStatsPayload) (max_insights : ℕ := 4) :
    Option (List Insight) :=
  if stats.candidate_insights.isEmpty then
    let completion_fact_id := "fact_completion_rate_" ++ natStr stats.window_days ++ "d"
    let completion_citation :=
      match regGet stats.fact_registry completion_fact_id with
      | some f => citationOfFact f
      | none =>
        { fact_id := completion_fact_id
          label := "Survey completion rate (" ++ natStr stats.window_days ++ "d)"
          value := .num (pyRound (stats.completion_rate * 100) 1)
          unit := some "percent"
          window_days := stats.window_days
          sample_size := some stats.logs_count
          method := "observed_days / window_days"
          provenance := "responses in recent window " ++ optDateStr stats.date_start ++
            ".." ++ optDateStr stats.date_end
          source_metric_keys := [] }
    some [{ type := "tip"
            message := fallback_tip_message stats
            citations := some [completion_citation] }]
  else
    (stats.candidate_insights.take max_insights).mapM (fallback_candidate_insight stats)

/-! ### `backend/services/insight_stats.py` -/

/-- One stored response as it appears inside a daily-log dict. -/
structure RespEntry where
  value : Option PyVal := none
  value_numeric : Option PyVal := none
  deriving DecidableEq

/-- One daily log (`{"date": ..., "responses": {...}}`). -/
structure LogEntry where
  date : Option String := none
  responses : List (String × RespEntry) := []
  deriving DecidableEq

/-- Generic assoc-list lookup (Python `dict.get`). -/
def assocGet {α : Type} (l : List (String × α)) (k : String) : Option α :=
  (l.find? (fun p => p.1 == k)).map (fun p => p.2)

/-- `responses.get(key, {})`. -/
def respGet (responses : List (String × RespEntry)) (k : String) : RespEntry :=
  (assocGet responses k).getD {}

/-- `_get_numeric`: `value_numeric` if numeric, else `value` if numeric. -/
def _get_numeric (responses : List (String × RespEntry)) (key : String) : Option ℚ :=
  let entry := respGet responses key
  if entry.value_numeric.any pyIsNum then entry.value_numeric.map pyNumQ
  else if entry.value.any pyIsNum then entry.value.map pyNumQ
  else none

/-- Decimal digit value of a character. -/
def digitVal (c : Char) : Option ℕ :=
  if c.isDigit then some (c.toNat - 48) else none

/-- Seconds-since-midnight from digit pairs, validating the field ranges. -/
def secsOfDigits (h1 h2 m1 m2 s1 s2 : Char) : Option ℕ := do
  let a ← digitVal h1
  let b ← digitVal h2
  let c ← digitVal m1
  let d ← digitVal m2
  let e ← digitVal s1
  let f ← digitVal s2
  let h := 10*a + b
  let m := 10*c + d
  let s := 10*e + f
  if h < 24 && m < 60 && s < 60 then some (h*3600 + m*60 + s) else none

/-- `time.fromisoformat` restricted to the `HH:MM` / `HH:MM:SS` strings the
pipeline stores (per the source's own docstring); anything else fails. -/
def parseTimeStr (s : String) : Option ℕ :=
  match s.data with
  | [h1, h2, ':', m1, m2] => secsOfDigits h1 h2 m1 m2 '0' '0'
  | [h1, h2, ':', m1, m2, ':', s1, s2] => secsOfDigits h1 h2 m1 m2 s1 s2
  | _ => none

/-- `_compute_sleep_hours`: parse both values as times of day on a common
date, move the wake time to the next day when not strictly later, and keep
the hour difference only inside [1, 18]. -/
def _compute_sleep_hours (actual_sleep_value wake_value : Option PyVal) : Option ℚ :=
  match parseTimeStr (pyStrOfOpt actual_sleep_value),
        parseTimeStr (pyStrOfOpt wake_value) with
  | some sleep_s, some wake_s =>
    let wake_s' := if wake_s ≤ sleep_s then wake_s + 86400 else wake_s
    let hours : ℚ := ((wake_s' : ℚ) - (sleep_s : ℚ)) / 3600
    if 1 ≤ hours ∧ hours ≤ 18 then some hours else none
  | _, _ => none

/-- `_avg`. -/
def _avg (values : List ℚ) : ℚ :=
  if values.isEmpty then 0 else values.sum / (values.length : ℚ)

/-- The per-metric lists accumulated by the builder's log loop. -/
structure MetricAcc where
  sleep_quality_values : List ℚ := []
  energy_values : List ℚ := []
  stress_values : List ℚ := []
  sleep_durations : List ℚ := []
  early_screen_sleep : List ℚ := []
  late_screen_sleep : List ℚ := []
  early_caffeine_sleep : List ℚ := []
  late_caffeine_sleep : List ℚ := []
  early_meal_sleep : List ℚ := []
  late_meal_sleep : List ℚ := []
  no_snooze_energy : List ℚ := []
  snooze_energy : List ℚ := []
  good_sleep_energy : List ℚ := []
  poor_sleep_energy : List ℚ := []
  long_sleep_energy : List ℚ := []
  short_sleep_energy : List ℚ := []
  deriving DecidableEq

/-- The body of the builder's `for log in logs` loop. -/
def accumulateLog (acc : MetricAcc) (log : LogEntry) : MetricAcc :=
  let responses := log.responses
  let sq := _get_numeric responses "sleepQuality"
  let energy := _get_numeric responses "energy"
  let stress := _get_numeric responses "stress"
  let screens := _get_numeric responses "screensOff"
  let caffeine := _get_numeric responses "caffeine"
  let meal := _get_numeric responses "lastMeal"
  let snooze := _get_numeric responses "snooze"
  let duration := _compute_sleep_hours (respGet responses "actualSleepTime").value
    (respGet responses "wakeTime").value
  { sleep_quality_values := acc.sleep_quality_values ++ sq.toList
    energy_values := acc.energy_values ++ energy.toList
    stress_values := acc.stress_values ++ stress.toList
    sleep_durations := acc.sleep_durations ++ duration.toList
    good_sleep_energy := acc.good_sleep_energy ++
      (match sq, energy with
       | some s, some e => if 4 ≤ s then [e] else []
       | _, _ => [])
    poor_sleep_energy := acc.poor_sleep_energy ++
      (match sq, energy with
       | some s, some e => if 4 ≤ s then [] else if s ≤ 2 then [e] else []
       | _, _ => [])
    early_screen_sleep := acc.early_screen_sleep ++
      (match screens, sq with
       | some b, some s => if 4 ≤ b then [s] else []
       | _, _ => [])
    late_screen_sleep := acc.late_screen_sleep ++
      (match screens, sq with
       | some b, some s => if 4 ≤ b then [] else if b ≤ 2 then [s] else []
       | _, _ => [])
    early_caffeine_sleep := acc.early_caffeine_sleep ++
      (match caffeine, sq with
       | some b, some s => if 4 ≤ b then [s] else []
       | _, _ => [])
    late_caffeine_sleep := acc.late_caffeine_sleep ++
      (match caffeine, sq with
       | some b, some s => if 4 ≤ b then [] else if b ≤ 2 then [s] else []
       | _, _ => [])
    early_meal_sleep := acc.early_meal_sleep ++
      (match meal, sq with
       | some b, some s => if 4 ≤ b then [s] else []
       | _, _ => [])
    late_meal_sleep := acc.late_meal_sleep ++
      (match meal, sq with
       | some b, some s => if 4 ≤ b then [] else if b ≤ 2 then [s] else []
       | _, _ => [])
    no_snooze_energy := acc.no_snooze_energy ++
      (match snooze, energy with
       | some b, some e => if 3 ≤ b then [e] else []
       | _, _ => [])
    snooze_energy := acc.snooze_energy ++
      (match snooze, energy with
       | some b, some e => if 3 ≤ b then [] else if b ≤ 2 then [e] else []
       | _, _ => [])
    long_sleep_energy := acc.long_sleep_energy ++
      (match duration, energy with
       | some d, some e => if 7 ≤ d then [e] else []
       | _, _ => [])
    short_sleep_energy := acc.short_sleep_energy ++
      (match duration, energy with
       | some d, some e => if 7 ≤ d then [] else if d < 6 then [e] else []
       | _, _ => []) }

/-- Facts-plus-candidates state threaded through the comparison calls. -/
structure CompState where
  facts : Registry
  candidates : List CandidateInsightEvidence
  deriving DecidableEq

/-- The candidate summary f-string
`f"{title}: {mean_good:.2f} vs {mean_poor:.2f} ({delta:+.2f}) over {window_days} days"`. -/
def mkSummary (title : String) (mean_good mean_poor delta : ℚ) (window_days : ℕ) : String :=
  title ++ ": " ++ fmt2 mean_good ++ " vs " ++ fmt2 mean_poor ++ " (" ++
  fmt2s delta ++ ") over " ++ natStr window_days ++ " days"

/-- `add_comparison_candidate` (the closure inside
`build_insight_stats_payload`, with its captured state made explicit). -/
def add_comparison_candidate (window_days : ℕ) (provenance : String) (st : CompState)
    (insight_id type_ title behavior outcome : String)
    (good_values poor_values : List ℚ)
    (source_metric_keys : List String) (action_hint : String) : CompState :=
  let min_samples_per_bucket : ℕ := if window_days ≤ 7 then 1 else 2
  if good_values.length < min_samples_per_bucket ∨
     poor_values.length < min_samples_per_bucket then st
  else
    let mean_good := pyRound (_avg good_values) 2
    let mean_poor := pyRound (_avg poor_values) 2
    let delta := pyRound (mean_good - mean_poor) 2
    if |delta| < 3/10 then st
    else
      let stem := "fact_" ++ insight_id ++ "_" ++ natStr window_days ++ "d"
      let fact_good := stem ++ "_mean_good"
      let fact_poor := stem ++ "_mean_poor"
      let fact_delta := stem ++ "_delta"
      let facts1 := regSet st.facts fact_good
        { fact_id := fact_good
          label := title ++ ": average " ++ outcome ++ " when " ++ behavior ++ " is favorable"
          value := .num mean_good
          unit := some "out of 5"
          window_days := window_days
          sample_size := some good_values.length
          method := "mean"
          provenance := provenance
          source_metric_keys := source_metric_keys }
      let facts2 := regSet facts1 fact_poor
        { fact_id := fact_poor
          label := title ++ ": average " ++ outcome ++ " when " ++ behavior ++ " is unfavorable"
          value := .num mean_poor
          unit := some "out of 5"
          window_days := window_days
          sample_size := some poor_values.length
          method := "mean"
          provenance := provenance
          source_metric_keys := source_metric_keys }
      let facts3 := regSet facts2 fact_delta
        { fact_id := fact_delta
          label := title ++ ": difference in " ++ outcome ++
            " between favorable and unfavorable behavior"
          value := .num delta
          unit := some "points"
          window_days := window_days
          n_good := some good_values.length
          n_poor := some poor_values.length
          method := "mean_difference"
          provenance := provenance
          source_metric_keys := source_metric_keys }
      let sample_weight : ℚ := (min good_values.length poor_values.length : ℚ) / 5
      let score := pyRound (|delta| * min sample_weight 1) 3
      let direction := if 0 < delta then "better" else "worse"
      { facts := facts3
        candidates := st.candidates ++
          [{ insight_id := insight_id
             type := type_
             title := title
             behavior := behavior
             outcome := outcome
             direction := direction
             magnitude := |delta|
             summary := mkSummary title mean_good mean_poor delta window_days
             fact_ids := [fact_good, fact_poor, fact_delta]
             score := score
             action_hint := action_hint }] }

/-- Stable insert for the descending-by-score candidate sort. -/
def insCand (x : CandidateInsightEvidence) :
    List CandidateInsightEvidence → List CandidateInsightEvidence
  | [] => [x]
  | y :: ys => if y.score ≤ x.score then x :: y :: ys else y :: insCand x ys

/-- `candidates.sort(key=lambda c: c.score, reverse=True)`: stable,
descending by score. -/
def sortCands : List CandidateInsightEvidence → List CandidateInsightEvidence
  | [] => []
  | x :: xs => insCand x (sortCands xs)

/-- `build_insight_stats_payload`. -/
def build_insight_stats_payload (logs : List LogEntry) (window_days : ℕ := 14) :
    InsightStatsPayload :=
  if logs.isEmpty then
    { window_days := window_days, logs_count := 0, completion_rate := 0 }
  else
    let dates := logs.filterMap (fun log =>
      match log.date with
      | some d => if d = "" then none else some d
      | none => none)
    let date_end := dates.head?
    let date_start := dates.getLast?
    let provenance :=
      match date_start, date_end with
      | some a, some b => "responses in window " ++ a ++ ".." ++ b
      | _, _ => "responses in recent window"
    let completion_rate :=
      if window_days = 0 then 0 else pyRound ((logs.length : ℚ) / (window_days : ℚ)) 3
    let completion_fact_id := "fact_completion_rate_" ++ natStr window_days ++ "d"
    let facts0 : Registry := regSet [] completion_fact_id
      { fact_id := completion_fact_id
        label := "Survey completion rate (" ++ natStr window_days ++ "d)"
        value := .num (pyRound (completion_rate * 100) 1)
        unit := some "percent"
        window_days := window_days
        sample_size := some logs.length
        method := "observed_days / window_days"
        provenance := provenance
        source_metric_keys := [] }
    let summary0 : List String := [completion_fact_id]
    let acc := logs.foldl accumulateLog {}
    let sqId := "fact_avg_sleep_quality_" ++ natStr window_days ++ "d"
    let p1 : Registry × List String :=
      if acc.sleep_quality_values.isEmpty then (facts0, summary0)
      else
        (regSet facts0 sqId
          { fact_id := sqId
            label := "Average sleep quality (" ++ natStr window_days ++ "d)"
            value := .num (pyRound (_avg acc.sleep_quality_values) 2)
            unit := some "out of 5"
            window_days := window_days
            sample_size := some acc.sleep_quality_values.length
            method := "mean"
            provenance := provenance
            source_metric_keys := ["sleepQuality"] }, summary0 ++ [sqId])
    let enId := "fact_avg_energy_" ++ natStr window_days ++ "d"
    let p2 : Registry × List String :=
      if acc.energy_values.isEmpty then p1
      else
        (regSet p1.1 enId
          { fact_id := enId
            label := "Average morning energy (" ++ natStr window_days ++ "d)"
            value := .num (pyRound (_avg acc.energy_values) 2)
            unit := some "out of 5"
            window_days := window_days
            sample_size := some acc.energy_values.length
            method := "mean"
            provenance := provenance
            source_metric_keys := ["energy"] }, p1.2 ++ [enId])
    let duId := "fact_avg_sleep_duration_" ++ natStr window_days ++ "d"
    let p3 : Registry × List String :=
      if acc.sleep_durations.isEmpty then p2
      else
        (regSet p2.1 duId
          { fact_id := duId
            label := "Average sleep duration (" ++ natStr window_days ++ "d)"
            value := .num (pyRound (_avg acc.sleep_durations) 2)
            unit := some "hours"
            window_days := window_days
            sample_size := some acc.sleep_durations.length
            method := "mean"
            provenance := provenance
            source_metric_keys := ["actualSleepTime", "wakeTime"] }, p2.2 ++ [duId])
    let stId := "fact_high_stress_rate_" ++ natStr window_days ++ "d"
    let p4 : Registry × List String :=
      if acc.stress_values.isEmpty then p3
      else
        let high_stress_rate := pyRound
          ((((acc.stress_values.filter (fun s => 4 ≤ s)).length : ℚ) /
            (acc.stress_values.length : ℚ)) * 100) 1
        (regSet p3.1 stId
          { fact_id := stId
            label := "High stress evening rate (" ++ natStr window_days ++ "d)"
            value := .num high_stress_rate
            unit := some "percent"
            window_days := window_days
            sample_size := some acc.stress_values.length
            method := "ratio"
            provenance := provenance
            source_metric_keys := ["stress"] }, p3.2 ++ [stId])
    let st0 : CompState := { facts := p4.1, candidates := [] }
    let st1 := add_comparison_candidate window_days provenance st0
      "screens_sleep" "pattern" "Screen timing and sleep quality"
      "screensOff" "sleepQuality" acc.early_screen_sleep acc.late_screen_sleep
      ["screensOff", "sleepQuality"]
      "Consider one earlier screen-off night to test tomorrow's sleep quality."
    let st2 := add_comparison_candidate window_days provenance st1
      "caffeine_sleep" "pattern" "Caffeine timing and sleep quality"
      "caffeine" "sleepQuality" acc.early_caffeine_sleep acc.late_caffeine_sleep
      ["caffeine", "sleepQuality"]
      "Try moving caffeine earlier and notice the next morning."
    let st3 := add_comparison_candidate window_days provenance st2
      "meal_sleep" "pattern" "Meal timing and sleep quality"
      "lastMeal" "sleepQuality" acc.early_meal_sleep acc.late_meal_sleep
      ["lastMeal", "sleepQuality"]
      "Test finishing dinner earlier on a couple of nights this week."
    let st4 := add_comparison_candidate window_days provenance st3
      "sleep_quality_energy" "pattern" "Sleep quality and morning energy"
      "sleepQuality" "energy" acc.good_sleep_energy acc.poor_sleep_energy
      ["sleepQuality", "energy"]
      "Pick one bedtime routine step that helps your sleep quality tonight."
    let st5 := add_comparison_candidate window_days provenance st4
      "snooze_energy" "pattern" "Snooze behavior and morning energy"
      "snooze" "energy" acc.no_snooze_energy acc.snooze_energy
      ["snooze", "energy"]
      "Try one no-snooze morning this week and compare how you feel."
    let st6 := add_comparison_candidate window_days provenance st5
      "duration_energy" "pattern" "Sleep duration and morning energy"
      "sleepDuration" "energy" acc.long_sleep_energy acc.short_sleep_energy
      ["actualSleepTime", "wakeTime", "energy"]
      "Aim for a slightly longer sleep window on your next two nights."
    { window_days := window_days
      logs_count := logs.length
      date_start := date_start
      date_end := date_end
      completion_rate := completion_rate
      summary_fact_ids := p4.2
      candidate_insights := (sortCands st6.candidates).take 8
      fact_registry := st6.facts }

/-! ### `backend/routers/logs.py`: response store model -/

/-- `ORDINAL_SCORES`. -/
def ORDINAL_SCORES : List (String × List (String × ℚ)) :=
  [("lastMeal",
    [("3+hours", 5), ("2-3hours", 4), ("1-2hours", 3), ("<1hour", 2), ("justAte", 1)]),
   ("screensOff",
    [("2+hours", 5), ("1-2hours", 4), ("30-60min", 3), ("<30min", 2), ("stillUsing", 1)]),
   ("caffeine",
    [("none", 5), ("before12", 4), ("12-2pm", 3), ("2-6pm", 2), ("after6pm", 1)]),
   ("snooze",
    [("noAlarm", 4), ("no", 3), ("1-2times", 2), ("3+times", 1)])]

/-- The `response_type` column of `QUESTION_META` (categories are not used
by the store logic). -/
def QUESTION_META : List (String × String) :=
  [("wakeTime", "time"), ("stress", "likert"), ("sleepQuality", "likert"),
   ("plannedSleepTime", "time"), ("lastMeal", "text"), ("screensOff", "text"),
   ("caffeine", "text"), ("actualSleepTime", "time"), ("snooze", "text"),
   ("energy", "likert"), ("sleepiness", "likert")]

/-- One row of the `responses` table: the five typed value slots. -/
structure ResponseRow where
  response_numeric : Option ℚ := none
  response_text : Option String := none
  response_bool : Option Bool := none
  response_time : Option String := none
  response_timestamp : Option String := none
  deriving DecidableEq

/-- `time.isoformat()` on a seconds-since-midnight value. -/
def timeIso (n : ℕ) : String :=
  pad2 (n / 3600) ++ ":" ++ pad2 (n % 3600 / 60) ++ ":" ++ pad2 (n % 60)

/-- Python `str(v)` on a runtime value. -/
def pyStrOf (v : PyVal) : String := pyStrOfOpt (some v)

/-- The value-classification part of `_upsert_response`: the typed row
written for `(question_key, value)` (the surrounding DB insert/update is
the external table store). -/
def _upsert_response_payload (question_key : String) (value : PyVal) : ResponseRow :=
  let response_type := (assocGet QUESTION_META question_key).getD "text"
  let is_ordinal_question := (assocGet ORDINAL_SCORES question_key).isSome
  match value with
  | .str v =>
    if is_ordinal_question then
      let scores := (assocGet ORDINAL_SCORES question_key).getD []
      { response_text := some v, response_numeric := assocGet scores v }
    else if response_type = "time" then
      { response_text := some v
        response_time :=
          if v.data.contains ':' then (parseTimeStr v).map timeIso else none }
    else { response_text := some v }
  | .pybool b => { response_bool := some b }
  | .num q => { response_numeric := some q }
  | .dt iso => { response_timestamp := some iso }

/-- `_extract_value`: display-value precedence
timestamp > time > text > numeric > bool. -/
def _extract_value (row : ResponseRow) : Option PyVal :=
  match row.response_timestamp with
  | some t => some (.dt t)
  | none =>
  match row.response_time with
  | some t => some (.str t)
  | none =>
  match row.response_text with
  | some t => some (.str t)
  | none =>
  match row.response_numeric with
  | some q => some (.num q)
  | none =>
  match row.response_bool with
  | some b => some (.pybool b)
  | none => none

/-- `_extract_value_type`. -/
def _extract_value_type (row : ResponseRow) : String :=
  if row.response_timestamp.isSome then "timestamp"
  else if row.response_time.isSome then "time"
  else if row.response_text.isSome && row.response_numeric.isSome then "ordinal"
  else if row.response_numeric.isSome then "numeric"
  else if row.response_bool.isSome then "bool"
  else "text"

/-! ### Generation orchestrator

The LLM-driven `insights` endpoint is exercised by
`backend/tests/test_insight_pipeline.py` (which monkeypatches
`logs_router.settings`, `logs_router.LLMInsightsClient`, …), but the
router shipped under `backend/routers/` holds the pre-LLM heuristic
variant without those symbols, so the orchestrator itself is modelled
from the specification (§4.5). -/

/-- Modelled from the spec: the fixed "temporarily unavailable" tip that
`CHECK_PRECONDITIONS` returns when the feature is disabled or no
generator credential is configured (its exact wording is not in the
sources; only its fixedness and distinguishability matter). -/
def static_unavailable_insight : Insight :=
  { type := "tip"
    message := "Personalized insights are temporarily unavailable. " ++
      "Keep completing your daily surveys." }

/-- Outcome of one orchestrated insight request: the produced output
(`none` models an unhandled exception) and how often the generator ran. -/
structure OrchestrationResult where
  output : Option (List Insight)
  generator_calls : ℕ
  deriving DecidableEq

/-- Modelled from the spec: the generation orchestrator state machine of
§4.5 (`BUILD_EVIDENCE → CHECK_PRECONDITIONS → GENERATE → VALIDATE →
retry once → FALLBACK`), absent from the shipped router.  The generator
is a function of the attempt number returning either a transport error or
a parsed response; validation failure triggers exactly one retry with the
identical payload, a generator error goes straight to the fallback, a
valid response that maps to zero insights also falls back, and every path
truncates to the configured maximum. -/
def orchestrate (enabled key_configured : Bool)
    (gen : ℕ → Except String LLMInsightResponse)
    (stats : InsightStatsPayload) (max_insights : ℕ) : OrchestrationResult :=
  if !(enabled && key_configured) then
    { output := some [static_unavailable_insight], generator_calls := 0 }
  else
    match gen 1 with
    | .error _ =>
      { output := (build_deterministic_fallback stats max_insights).map
          (fun l => l.take max_insights)
        generator_calls := 1 }
    | .ok r1 =>
      if (validate_llm_response r1 stats).valid then
        let mapped := map_to_api_insights r1 stats
        if mapped.isEmpty then
          { output := (build_deterministic_fallback stats max_insights).map
              (fun l => l.take max_insights)
            generator_calls := 1 }
        else { output := some (mapped.take max_insights), generator_calls := 1 }
      else
        match gen 2 with
        | .error _ =>
          { output := (build_deterministic_fallback stats max_insights).map
              (fun l => l.take max_insights)
            generator_calls := 2 }
        | .ok r2 =>
          if (validate_llm_response r2 stats).valid then
            let mapped := map_to_api_insights r2 stats
            if mapped.isEmpty then
              { output := (build_deterministic_fallback stats max_insights).map
                  (fun l => l.take max_insights)
                generator_calls := 2 }
            else { output := some (mapped.take max_insights), generator_calls := 2 }
          else
            { output := (build_deterministic_fallback stats max_insights).map
                (fun l => l.take max_insights)
              generator_calls := 2 }

/-- Modelled from the spec: the `/insights` endpoint of the LLM pipeline —
build the evidence payload from the recent logs and orchestrate with the
configured maximum of 4 insights. -/
def insights_endpoint (logs : List LogEntry) (window_days : ℕ)
    (enabled key_configured : Bool)
    (gen : ℕ → Except String LLMInsightResponse) : Option (List Insight) :=
  (orchestrate enabled key_configured gen
    (build_insight_stats_payload logs window_days) 4).output

/-! ### Concrete data used by witnesses and counterexamples -/

/-- A degenerate payload (no logs, empty registry). -/
def emptyStats : InsightStatsPayload :=
  { window_days := 14, logs_count := 0, completion_rate := 0 }

/-- A response whose single insight states an uncited number. -/
def respUncited : LLMInsightResponse :=
  ⟨[{ type := "pattern"
      message_with_citations := "Your sleep improved by 1.2 points."
      action := some "Keep it up."
      fact_ids_used := [] }]⟩

/-- A registry fact whose value (99) matches no token used in the strict
grounding demonstrations. -/
def factNinetyNine (id label : String) : FactDefinition :=
  { fact_id := id
    label := label
    value := .num 99
    unit := some "out of 5"
    window_days := 14
    sample_size := some 3
    method := "mean"
    provenance := "responses in window 2026-02-01..2026-02-14"
    source_metric_keys := ["energy"] }

/-- Payload for the C4 counterexample: window length 21, one numeric fact
whose value is 99. -/
def statsC4 : InsightStatsPayload :=
  { window_days := 21, logs_count := 3, completion_rate := 0
    fact_registry := [("fact_x", factNinetyNine "fact_x" "Average morning energy (21d)")] }

/-- Response for the C4 counterexample: the only numeric token is the
window length 21, which no fact value renders. -/
def respC4 : LLMInsightResponse :=
  ⟨[{ type := "tip"
      message_with_citations := "You logged screen data across 21 days [[cite:fact_x]]."
      fact_ids_used := ["fact_x"] }]⟩

/-- Payload for the C10 demonstration: window length 14, one numeric fact
whose value is 99. -/
def statsC10 : InsightStatsPayload :=
  { window_days := 14, logs_count := 3, completion_rate := 0
    fact_registry := [("fact_y", factNinetyNine "fact_y" "Average morning energy (14d)")] }

/-- Response for the C10 demonstration. -/
def respC10 : LLMInsightResponse :=
  ⟨[{ type := "tip"
      message_with_citations := "Great consistency across 14 days [[cite:fact_y]]."
      fact_ids_used := ["fact_y"] }]⟩

/-- Payload for the C5 witness: a single delta fact. -/
def statsC5 : InsightStatsPayload :=
  { window_days := 14, logs_count := 10, completion_rate := 7/10
    fact_registry :=
      [("fact_screens_sleep_14d_delta",
        { fact_id := "fact_screens_sleep_14d_delta"
          label := "Screen timing and sleep quality: difference in sleepQuality"
          value := .num 2
          unit := some "points"
          window_days := 14
          n_good := some 5
          n_poor := some 5
          method := "mean_difference"
          provenance := "responses in window 2026-02-11..2026-02-20"
          source_metric_keys := ["screensOff", "sleepQuality"] })] }

/-- Second-attempt response for the C5 witness: cites the delta fact. -/
def respC5good : LLMInsightResponse :=
  ⟨[{ type := "pattern"
      message_with_citations :=
        "A meaningful pattern appeared [[cite:fact_screens_sleep_14d_delta]]."
      action := some "Try it."
      fact_ids_used := ["fact_screens_sleep_14d_delta"] }]⟩

/-- Generator for the C5 witness: invalid first draft, valid second. -/
def genC5 : ℕ → Except String LLMInsightResponse := fun n =>
  if n = 1 then .ok respUncited else .ok respC5good

/-- A response whose cited sentence contains the fabricated number 1.2. -/
def respFabricated : LLMInsightResponse :=
  ⟨[{ type := "tip"
      message_with_citations := "Energy rose by 1.2 points [[cite:fact_y]]."
      fact_ids_used := ["fact_y"] }]⟩

/-- Two recent daily logs for the C1 analysis: an early-screens night with
good sleep and a late-screens night with poor sleep, enough for the
builder to emit one screens-vs-sleep comparison candidate over a 7-day
window. -/
def logsC1 : List LogEntry :=
  [{ date := some "2026-02-02"
     responses :=
       [("screensOff", { value_numeric := some (.num 5) }),
        ("sleepQuality", { value_numeric := some (.num 4) })] },
   { date := some "2026-02-01"
     responses :=
       [("screensOff", { value_numeric := some (.num 1) }),
        ("sleepQuality", { value_numeric := some (.num 2) })] }]

/-- The evidence payload the builder derives from `logsC1` over a 7-day
window. -/
def statsC1 : InsightStatsPayload := build_insight_stats_payload logsC1 7

/-! ## Helper lemmas -/

unseal Rat.add Rat.mul Rat.sub Rat.inv

theorem strData_append (a b : String) : (a ++ b).data = a.data ++ b.data :=
  String.data_append a b

theorem strNe_of_data_ne {a b : String} (h : a.data ≠ b.data) : a ≠ b := by
  intro hab
  exact h (by rw [hab])

theorem strAppend_ne_of_ne (a : String) {b c : String} (h : b ≠ c) : a ++ b ≠ a ++ c := by
  intro hab
  apply h
  have hd := congrArg String.data hab
  rw [strData_append, strData_append] at hd
  have hd2 := List.append_cancel_left hd
  cases b
  cases c
  exact congrArg String.mk hd2

theorem regGet_cons_ne {a : String × FactDefinition} {t : Registry} {k' : String}
    (h : (a.1 == k') = false) : regGet (a :: t) k' = regGet t k' := by
  unfold regGet
  simp [List.find?_cons, h]

theorem regGet_cons_eq {a : String × FactDefinition} {t : Registry} {k' : String}
    (h : (a.1 == k') = true) : regGet (a :: t) k' = some a.2 := by
  unfold regGet
  simp [List.find?_cons, h]

theorem regGet_map_replace_ne {k k' : String} (v : FactDefinition) (h : k' ≠ k) :
    ∀ t : Registry,
      regGet (t.map (fun p => if p.1 == k then (k, v) else p)) k' = regGet t k' := by
  intro t
  induction t with
  | nil => rfl
  | cons a t ih =>
    rw [List.map_cons]
    by_cases hk : a.1 = k
    · rw [if_pos (by simpa using hk)]
      rw [regGet_cons_ne (by simp; exact fun he => h he.symm)]
      rw [regGet_cons_ne (a := a) (by simp [hk]; exact fun he => h he.symm)]
      exact ih
    · rw [if_neg (by simpa using hk)]
      by_cases ha : a.1 = k'
      · rw [regGet_cons_eq (by simpa using ha), regGet_cons_eq (by simpa using ha)]
      · rw [regGet_cons_ne (by simpa using ha), regGet_cons_ne (by simpa using ha)]
        exact ih

theorem regGet_map_replace_eq {k : String} (v : FactDefinition) :
    ∀ t : Registry, (t.find? (fun p => p.1 == k)).isSome →
      regGet (t.map (fun p => if p.1 == k then (k, v) else p)) k = some v := by
  intro t
  induction t with
  | nil => intro h; simp [List.find?] at h
  | cons a t ih =>
    intro h
    rw [List.map_cons]
    by_cases hk : a.1 = k
    · rw [if_pos (by simpa using hk)]
      rw [regGet_cons_eq (by simp)]
    · rw [if_neg (by simpa using hk)]
      have h' : (t.find? (fun p => p.1 == k)).isSome := by
        rw [List.find?_cons] at h
        simpa [show (a.1 == k) = false by simpa using hk] using h
      rw [regGet_cons_ne (by simpa using hk)]
      exact ih h'

theorem regGet_append_single_ne {k k' : String} (v : FactDefinition) (h : k' ≠ k) :
    ∀ t : Registry, regGet (t ++ [(k, v)]) k' = regGet t k' := by
  intro t
  induction t with
  | nil =>
    show regGet [(k, v)] k' = regGet [] k'
    rw [regGet_cons_ne (by simp; exact fun he => h he.symm)]
  | cons a t ih =>
    by_cases ha : a.1 = k'
    · rw [List.cons_append, regGet_cons_eq (by simpa using ha),
        regGet_cons_eq (by simpa using ha)]
    · rw [List.cons_append, regGet_cons_ne (by simpa using ha),
        regGet_cons_ne (by simpa using ha)]
      exact ih

theorem regGet_append_single_eq {k : String} (v : FactDefinition) :
    ∀ t : Registry, ¬(t.find? (fun p => p.1 == k)).isSome →
      regGet (t ++ [(k, v)]) k = some v := by
  intro t
  induction t with
  | nil =>
    intro _
    show regGet [(k, v)] k = some v
    rw [regGet_cons_eq (by simp)]
  | cons a t ih =>
    intro h
    by_cases ha : a.1 = k
    · exact absurd (by simp [List.find?_cons, show (a.1 == k) = true by simpa using ha]) h
    · have h' : ¬(t.find? (fun p => p.1 == k)).isSome := by
        rw [List.find?_cons] at h
        simpa [show (a.1 == k) = false by simpa using ha] using h
      rw [List.cons_append, regGet_cons_ne (by simpa using ha)]
      exact ih h'

theorem regGet_regSet_self (reg : Registry) (k : String) (v : FactDefinition) :
    regGet (regSet reg k v) k = some v := by
  unfold regSet
  split
  · rename_i h
    exact regGet_map_replace_eq v reg h
  · rename_i h
    exact regGet_append_single_eq v reg h

theorem regGet_regSet_ne (reg : Registry) {k' k : String} (v : FactDefinition)
    (h : k' ≠ k) : regGet (regSet reg k v) k' = regGet reg k' := by
  unfold regSet
  split
  · exact regGet_map_replace_ne v h reg
  · exact regGet_append_single_ne v h reg

theorem regGet_regSet_isSome (reg : Registry) {k' : String} (k : String)
    (v : FactDefinition) (h : (regGet reg k').isSome) :
    (regGet (regSet reg k v) k').isSome := by
  by_cases hk : k' = k
  · subst hk
    rw [regGet_regSet_self]
    rfl
  · rw [regGet_regSet_ne reg v hk]
    exact h

theorem regGet_isSome_of_mem_keys {id : String} : ∀ {reg : Registry},
    id ∈ reg.map (fun p => p.1) → (regGet reg id).isSome := by
  intro reg
  induction reg with
  | nil => intro h; simp at h
  | cons a t ih =>
    intro h
    by_cases ha : a.1 = id
    · rw [regGet_cons_eq (by simpa using ha)]
      rfl
    · rw [regGet_cons_ne (by simpa using ha)]
      apply ih
      rcases List.mem_map.mp h with ⟨p, hp, he⟩
      rcases List.mem_cons.mp hp with hp | hp
      · exact absurd (hp ▸ he) ha
      · exact List.mem_map.mpr ⟨p, hp, he⟩

theorem mem_insCand {x y : CandidateInsightEvidence} : ∀ {l : List CandidateInsightEvidence},
    y ∈ insCand x l → y = x ∨ y ∈ l := by
  intro l
  induction l with
  | nil =>
    intro h
    simpa [insCand] using h
  | cons a t ih =>
    intro h
    unfold insCand at h
    split at h
    · simpa using h
    · rcases List.mem_cons.mp h with h | h
      · exact Or.inr (by simp [h])
      · rcases ih h with h | h
        · exact Or.inl h
        · exact Or.inr (by simp [h])

theorem mem_sortCands {c : CandidateInsightEvidence} : ∀ {l : List CandidateInsightEvidence},
    c ∈ sortCands l → c ∈ l := by
  intro l
  induction l with
  | nil =>
    intro h
    simp [sortCands] at h
  | cons a t ih =>
    intro h
    unfold sortCands at h
    rcases mem_insCand h with h | h
    · simp [h]
    · exact List.mem_cons_of_mem a (ih h)

theorem insSorted_ne_nil (x : String) (l : List String) : insSorted x l ≠ [] := by
  cases l with
  | nil => simp [insSorted]
  | cons y ys =>
    unfold insSorted
    split <;> simp

theorem sortStrs_eq_nil {l : List String} (h : sortStrs l = []) : l = [] := by
  cases l with
  | nil => rfl
  | cons x xs => exact absurd h (insSorted_ne_nil x (sortStrs xs))

theorem mem_dedupAux {x : String} : ∀ {l seen : List String},
    x ∈ dedupAux seen l → x ∈ l := by
  intro l
  induction l with
  | nil =>
    intro seen h
    simp [dedupAux] at h
  | cons a t ih =>
    intro seen h
    unfold dedupAux at h
    split at h
    · exact List.mem_cons_of_mem a (ih h)
    · rcases List.mem_cons.mp h with h | h
      · simp [h]
      · exact List.mem_cons_of_mem a (ih h)

theorem mem_dedupAux_of_mem {x : String} : ∀ {l seen : List String},
    x ∈ l → x ∉ seen → x ∈ dedupAux seen l := by
  intro l
  induction l with
  | nil =>
    intro seen hx _
    simp at hx
  | cons a t ih =>
    intro seen hx hs
    unfold dedupAux
    rcases List.mem_cons.mp hx with hx | hx
    · subst hx
      split
      · rename_i hc
        exact absurd (by simpa using hc) hs
      · simp
    · split
      · exact ih hx hs
      · by_cases hxa : x = a
        · simp [hxa]
        · refine List.mem_cons_of_mem a (ih hx ?_)
          intro hmem
          rcases List.mem_cons.mp hmem with hmem | hmem
          · exact hxa hmem
          · exact hs hmem

theorem mem_dedupL {x : String} {l : List String} : x ∈ dedupL l ↔ x ∈ l :=
  ⟨fun h => mem_dedupAux h, fun h => mem_dedupAux_of_mem h (by simp)⟩

theorem containsStr_iff {l : List String} {a : String} : l.contains a = true ↔ a ∈ l := by
  show l.elem a = true ↔ a ∈ l
  exact List.elem_iff

theorem uncited_mem_sentenceErrors {idx : ℕ} {allowed : List String}
    {sents : List String} {sentence : String} (hs : sentence ∈ sents)
    (h1 : hasNum sentence = true) (h2 : hasCite sentence = false) :
    ("insights[" ++ natStr idx ++ "] has uncited numeric sentence")
      ∈ sentenceErrors idx allowed sents := by
  unfold sentenceErrors
  refine List.mem_flatMap.mpr ⟨sentence, hs, ?_⟩
  simp [h1, h2]

theorem ungrounded_mem_sentenceErrors {idx : ℕ} {allowed : List String}
    {sents : List String} {sentence : String} (hs : sentence ∈ sents)
    (h1 : hasNum sentence = true) (h2 : hasCite sentence = true)
    (h3 : ((numTokens sentence).map _normalize_numeric_token).filter
      (fun t => !allowed.contains t) ≠ []) :
    ("insights[" ++ natStr idx ++ "] has numbers not grounded in allowed facts: " ++
      joinComma (((numTokens sentence).map _normalize_numeric_token).filter
        (fun t => !allowed.contains t)))
      ∈ sentenceErrors idx allowed sents := by
  unfold sentenceErrors
  refine List.mem_flatMap.mpr ⟨sentence, hs, ?_⟩
  simp only [h1, h2]
  obtain ⟨t, ht⟩ := List.exists_mem_of_ne_nil _ h3
  obtain ⟨htm, htc⟩ := List.mem_filter.mp ht
  obtain ⟨x, hx, hxe⟩ := List.mem_map.mp htm
  simp only [Bool.not_eq_true'] at htc
  simp [h3]
  refine ⟨x, hx, ?_⟩
  rw [hxe]
  intro hm
  have hct := containsStr_iff.mpr hm
  rw [htc] at hct
  cases hct

theorem sentence_mem_insightErrors {idx : ℕ} {aF aN : List String}
    {d : LLMInsightDraft} {e : String}
    (he : e ∈ sentenceErrors idx aN (splitSentences d.message_with_citations)) :
    e ∈ insightErrors idx aF aN d := by
  unfold insightErrors
  simp only [List.mem_append]
  tauto

theorem mem_errorsGo {aF aN : List String} {e : String} :
    ∀ (ds : List LLMInsightDraft) (i j : ℕ) (d : LLMInsightDraft),
      ds.get? j = some d → e ∈ insightErrors (i + j) aF aN d →
      e ∈ errorsGo aF aN i ds := by
  intro ds
  induction ds with
  | nil =>
    intro i j d hg
    simp at hg
  | cons a t ih =>
    intro i j d hg he
    unfold errorsGo
    rw [List.mem_append]
    cases j with
    | zero =>
      left
      simp only [List.get?] at hg
      cases hg
      simpa using he
    | succ j' =>
      right
      simp only [List.get?] at hg
      exact ih (i+1) j' d hg (by
        have : i + 1 + j' = i + (j' + 1) := by omega
        rw [this]
        exact he)

theorem validate_false_of_mem {r : LLMInsightResponse} {s : InsightStatsPayload}
    {e : String}
    (h : e ∈ errorsGo (s.fact_registry.map (fun p => p.1)) (_allowed_numeric_tokens s)
      0 r.insights) :
    (validate_llm_response r s).valid = false ∧ e ∈ (validate_llm_response r s).errors := by
  unfold validate_llm_response
  refine ⟨?_, h⟩
  cases hE : errorsGo (s.fact_registry.map (fun p => p.1)) (_allowed_numeric_tokens s)
      0 r.insights with
  | nil =>
    rw [hE] at h
    simp at h
  | cons x xs => rfl

theorem errorsGo_nil_forall {aF aN : List String} :
    ∀ (ds : List LLMInsightDraft) (i : ℕ), errorsGo aF aN i ds = [] →
      ∀ d ∈ ds, ∃ k, insightErrors k aF aN d = [] := by
  intro ds
  induction ds with
  | nil =>
    intro i _ d hd
    simp at hd
  | cons a t ih =>
    intro i h d hd
    unfold errorsGo at h
    rcases List.append_eq_nil.mp h with ⟨h1, h2⟩
    rcases List.mem_cons.mp hd with hd | hd
    · exact ⟨i, hd ▸ h1⟩
    · exact ih (i+1) h2 d hd

theorem conditions_of_insightErrors_nil {i : ℕ} {aF aN : List String}
    {d : LLMInsightDraft} (h : insightErrors i aF aN d = []) :
    citeIds d.message_with_citations ≠ [] ∧
    (∀ id ∈ citeIds d.message_with_citations, aF.contains id = true) ∧
    (∀ id ∈ citeIds d.message_with_citations, d.fact_ids_used.contains id = true) := by
  unfold insightErrors at h
  simp only [List.append_eq_nil] at h
  obtain ⟨⟨⟨⟨⟨⟨h1, h2⟩, h3⟩, h4⟩, h5⟩, h6⟩, h7⟩ := h
  refine ⟨?_, ?_, ?_⟩
  · intro hnil
    simp [hnil] at h1
  · intro id hid
    by_contra hc
    have hcf : aF.contains id = false := by
      cases hcv : aF.contains id
      · rfl
      · exact absurd hcv hc
    have hmem : id ∈ (dedupL (citeIds d.message_with_citations)).filter
        (fun id => !aF.contains id) := by
      refine List.mem_filter.mpr ⟨mem_dedupL.mpr hid, ?_⟩
      simp only [Bool.not_eq_true']
      exact hcf
    have hne := List.ne_nil_of_mem hmem
    split at h2
    · rename_i hemp
      exact hne (sortStrs_eq_nil (by simpa using hemp))
    · simp at h2
  · intro id hid
    by_contra hc
    have hcf : d.fact_ids_used.contains id = false := by
      cases hcv : d.fact_ids_used.contains id
      · rfl
      · exact absurd hcv hc
    have hany : (dedupL (citeIds d.message_with_citations)).any
        (fun id => !d.fact_ids_used.contains id) = true := by
      refine List.any_eq_true.mpr ⟨id, mem_dedupL.mpr hid, ?_⟩
      simp only [Bool.not_eq_true']
      exact hcf
    rw [hany] at h3
    simp at h3

/-- C4 (amended): numeric tokens in a cited sentence are checked against
the validator's allowed-token set (which, beyond the integer and
one-decimal renderings of fact values, also holds the two-decimal `str`
rendering of non-whole fact values and the window/log-count/completion
context numbers); every token outside that set is reported with a
"not grounded in allowed facts" error, and this sub-check runs on every
validation call. -/
theorem claim_C4 (r : LLMInsightResponse) (s : InsightStatsPayload) (idx : ℕ)
    (d : LLMInsightDraft) (sentence : String)
    (hg : r.insights.get? idx = some d)
    (hs : sentence ∈ splitSentences d.message_with_citations)
    (h1 : hasNum sentence = true) (h2 : hasCite sentence = true)
    (h3 : ((numTokens sentence).map _normalize_numeric_token).filter
      (fun t => !(_allowed_numeric_tokens s).contains t) ≠ []) :
    (validate_llm_response r s).valid = false ∧
    ("insights[" ++ natStr idx ++ "] has numbers not grounded in allowed facts: " ++
      joinComma (((numTokens sentence).map _normalize_numeric_token).filter
        (fun t => !(_allowed_numeric_tokens s).contains t)))
      ∈ (validate_llm_response r s).errors := by
  refine validate_false_of_mem (mem_errorsGo r.insights 0 idx d hg ?_)
  rw [Nat.zero_add]
  exact sentence_mem_insightErrors (ungrounded_mem_sentenceErrors hs h1 h2 h3)

/-- C4 witness: the cited sentence "Energy rose by 1.2 points
[[cite:fact_y]]." against a registry whose only fact value is 99 is
rejected with the not-grounded error for the token 1.2. -/
theorem claim_C4_witness :
    (validate_llm_response respFabricated statsC10).valid = false ∧
    ("insights[" ++ natStr 0 ++ "] has numbers not grounded in allowed facts: " ++
      joinComma (((numTokens "Energy rose by 1.2 points [[cite:fact_y]].").map
        _normalize_numeric_token).filter
        (fun t => !(_allowed_numeric_tokens statsC10).contains t)))
      ∈ (validate_llm_response respFabricated statsC10).errors :=
  (claim_C4 respFabricated statsC10 0
    { type := "tip"
      message_with_citations := "Energy rose by 1.2 points [[cite:fact_y]]."
      fact_ids_used := ["fact_y"] }
    "Energy rose by 1.2 points [[cite:fact_y]]."
    (by decide) (by decide) (by decide) (by decide) (by decide)).2
  |> fun h => ⟨(claim_C4 respFabricated statsC10 0
    { type := "tip"
      message_with_citations := "Energy rose by 1.2 points [[cite:fact_y]]."
      fact_ids_used := ["fact_y"] }
    "Energy rose by 1.2 points [[cite:fact_y]]."
    (by decide) (by decide) (by decide) (by decide) (by decide)).1, h⟩

/-- C4 counterexample: the claim as stated is false — the validator's
allowed set is larger than the fact renderings, so a cited sentence whose
only numeric token is the window length (21), matching no fact value in
the registry, produces no "not grounded" error: validation succeeds. -/
theorem claim_C4_counterexample :
    (validate_llm_response respC4 statsC4).valid = true ∧
    "21" ∈ numTokens "You logged screen data across 21 days [[cite:fact_x]]." ∧
    statsC4.fact_registry.all
      (fun p => !(factNumericTokens p.2).contains (_normalize_numeric_token "21")) = true := by
  decide

/-- C6: the sleep-duration computation parses both inputs as times of day
on one common date, moves the wake time to the following day whenever it
is not strictly later than the sleep time, keeps the hour difference
exactly when it lies in [1, 18] and yields missing otherwise (including
on parse failure); 23:00→07:00 gives 8.0 hours and 09:00→09:30 is
discarded. -/
theorem claim_C6 :
    (∀ a w : String, parseTimeStr a = none →
      _compute_sleep_hours (some (.str a)) (some (.str w)) = none) ∧
    (∀ a w : String, parseTimeStr w = none →
      _compute_sleep_hours (some (.str a)) (some (.str w)) = none) ∧
    (∀ (a w : String) (sa sw : ℕ), parseTimeStr a = some sa → parseTimeStr w = some sw →
      _compute_sleep_hours (some (.str a)) (some (.str w)) =
        (if 1 ≤ (((if sw ≤ sa then sw + 86400 else sw : ℕ) : ℚ) - (sa : ℚ)) / 3600 ∧
            (((if sw ≤ sa then sw + 86400 else sw : ℕ) : ℚ) - (sa : ℚ)) / 3600 ≤ 18
         then some ((((if sw ≤ sa then sw + 86400 else sw : ℕ) : ℚ) - (sa : ℚ)) / 3600)
         else none)) ∧
    _compute_sleep_hours (some (.str "23:00")) (some (.str "07:00")) = some 8 ∧
    _compute_sleep_hours (some (.str "09:00")) (some (.str "09:30")) = none := by
  refine ⟨?_, ?_, ?_, by decide, by decide⟩
  · intro a w h
    unfold _compute_sleep_hours
    simp only [pyStrOfOpt, h]
  · intro a w h
    unfold _compute_sleep_hours
    simp only [pyStrOfOpt, h]
    cases parseTimeStr a <;> rfl
  · intro a w sa sw ha hw
    unfold _compute_sleep_hours
    simp only [pyStrOfOpt, ha, hw]

/-- C6 witness: an unparsable sleep time yields missing, via `claim_C6`. -/
theorem claim_C6_witness :
    _compute_sleep_hours (some (.str "not-a-time")) (some (.str "07:00")) = none :=
  claim_C6.1 "not-a-time" "07:00" (by decide)

/-- C7 (amended): upserting a text answer for an ordinal-enum question
stores the text label together with the score resolved from the fixed
table (an unknown label stores the text with an absent score, never an
error); extraction returns the original label, with value_type "ordinal"
exactly when the label is known to the table and "text" otherwise; in
particular screensOff = "2+hours" round-trips as value "2+hours",
value_type "ordinal", score 5. -/
theorem claim_C7 :
    (∀ (key v : String) (scores : List (String × ℚ)),
      assocGet ORDINAL_SCORES key = some scores →
      _upsert_response_payload key (.str v) =
        { response_text := some v, response_numeric := assocGet scores v } ∧
      _extract_value (_upsert_response_payload key (.str v)) = some (.str v) ∧
      _extract_value_type (_upsert_response_payload key (.str v)) =
        (if (assocGet scores v).isSome then "ordinal" else "text")) ∧
    _upsert_response_payload "screensOff" (.str "2+hours") =
      { response_text := some "2+hours", response_numeric := some 5 } ∧
    _extract_value (_upsert_response_payload "screensOff" (.str "2+hours")) =
      some (.str "2+hours") ∧
    _extract_value_type (_upsert_response_payload "screensOff" (.str "2+hours")) =
      "ordinal" := by
  refine ⟨?_, by decide, by decide, by decide⟩
  intro key v scores h
  have hord : (assocGet ORDINAL_SCORES key).isSome = true := by
    rw [h]
    rfl
  have hrow : _upsert_response_payload key (.str v) =
      { response_text := some v, response_numeric := assocGet scores v } := by
    unfold _upsert_response_payload
    simp only [hord, if_pos]
    rw [h]
    rfl
  refine ⟨hrow, ?_, ?_⟩
  · rw [hrow]
    cases assocGet scores v <;> rfl
  · rw [hrow]
    cases assocGet scores v <;> rfl

/-- C7 counterexample: the claim as stated asserts value_type "ordinal"
for every text answer to an ordinal question, but an unknown label stores
no score and reads back with value_type "text". -/
theorem claim_C7_counterexample :
    _extract_value_type (_upsert_response_payload "screensOff" (.str "mystery")) ≠
      "ordinal" := by
  decide

/-- C7 witness: a known caffeine label round-trips, via `claim_C7`. -/
theorem claim_C7_witness :
    _extract_value (_upsert_response_payload "caffeine" (.str "before12")) =
      some (PyVal.str "before12") :=
  (claim_C7.1 "caffeine" "before12"
    [("none", 5), ("before12", 4), ("12-2pm", 3), ("2-6pm", 2), ("after6pm", 1)]
    (by decide)).2.1

/-- C8: an empty log list yields the degenerate payload (zero logs, zero
completion rate, empty registry and candidate list), and the fallback on
any payload without candidates returns exactly one "tip" insight whose
single citation is the completion-rate fact — copied from the registry
when present and constructed inline when absent. -/
theorem claim_C8 :
    (∀ w : ℕ, build_insight_stats_payload [] w =
      { window_days := w, logs_count := 0, completion_rate := 0 }) ∧
    (∀ (s : InsightStatsPayload) (m : ℕ), s.candidate_insights = [] →
      ∃ ins c,
        build_deterministic_fallback s m = some [ins] ∧
        ins.type = "tip" ∧
        ins.message = fallback_tip_message s ∧
        ins.citations = some [c] ∧
        (∀ f, regGet s.fact_registry
            ("fact_completion_rate_" ++ natStr s.window_days ++ "d") = some f →
          c = citationOfFact f) ∧
        (regGet s.fact_registry
            ("fact_completion_rate_" ++ natStr s.window_days ++ "d") = none →
          c = { fact_id := "fact_completion_rate_" ++ natStr s.window_days ++ "d"
                label := "Survey completion rate (" ++ natStr s.window_days ++ "d)"
                value := .num (pyRound (s.completion_rate * 100) 1)
                unit := some "percent"
                window_days := s.window_days
                sample_size := some s.logs_count
                method := "observed_days / window_days"
                provenance := "responses in recent window " ++ optDateStr s.date_start ++
                  ".." ++ optDateStr s.date_end
                source_metric_keys := [] })) := by
  constructor
  · intro w
    rfl
  · intro s m h
    have hemp : s.candidate_insights.isEmpty = true := by
      rw [h]
      rfl
    unfold build_deterministic_fallback
    rw [if_pos hemp]
    cases hreg : regGet s.fact_registry
        ("fact_completion_rate_" ++ natStr s.window_days ++ "d") with
    | some f =>
      simp only [hreg]
      refine ⟨_, _, rfl, rfl, rfl, rfl, ?_, ?_⟩
      · intro f' hf'
        cases hf'
        rfl
      · intro hn
        cases hn
    | none =>
      simp only [hreg]
      refine ⟨_, _, rfl, rfl, rfl, rfl, ?_, ?_⟩
      · intro f' hf'
        cases hf'
      · intro _
        rfl

/-- C8 witness: the degenerate payload produces the single tip insight
with an inline completion-rate citation, via `claim_C8`. -/
theorem claim_C8_witness :
    ∃ ins c,
      build_deterministic_fallback emptyStats 4 = some [ins] ∧
      ins.type = "tip" ∧
      ins.message = fallback_tip_message emptyStats ∧
      ins.citations = some [c] ∧
      (∀ f, regGet emptyStats.fact_registry
          ("fact_completion_rate_" ++ natStr emptyStats.window_days ++ "d") = some f →
        c = citationOfFact f) ∧
      (regGet emptyStats.fact_registry
          ("fact_completion_rate_" ++ natStr emptyStats.window_days ++ "d") = none →
        c = { fact_id := "fact_completion_rate_" ++ natStr emptyStats.window_days ++ "d"
              label := "Survey completion rate (" ++ natStr emptyStats.window_days ++ "d)"
              value := .num (pyRound (emptyStats.completion_rate * 100) 1)
              unit := some "percent"
              window_days := emptyStats.window_days
              sample_size := some emptyStats.logs_count
              method := "observed_days / window_days"
              provenance := "responses in recent window " ++ optDateStr emptyStats.date_start ++
                ".." ++ optDateStr emptyStats.date_end
              source_metric_keys := [] }) :=
  claim_C8.2 emptyStats 4 (by decide)

/-- C3: `add_comparison_candidate` appends a candidate for a
behavior→outcome pair if and only if both buckets reach the minimum
sample size (1 when the window is at most 7 days, 2 otherwise) and the
absolute difference of the rounded bucket means is at least 0.3; when it
does, the favorable-mean, unfavorable-mean and delta facts enter the
registry with exactly those values, and when either gate fails the state
is returned unchanged, so neither the candidate nor any of its three
facts is emitted. -/
theorem claim_C3 (window_days : ℕ) (provenance : String) (st : CompState)
    (insight_id type_ title behavior outcome : String)
    (good_values poor_values : List ℚ) (keys : List String) (hint : String) :
    let m : ℕ := if window_days ≤ 7 then 1 else 2
    let mean_good := pyRound (_avg good_values) 2
    let mean_poor := pyRound (_avg poor_values) 2
    let delta := pyRound (mean_good - mean_poor) 2
    ((∃ c, (add_comparison_candidate window_days provenance st insight_id type_ title
        behavior outcome good_values poor_values keys hint).candidates =
        st.candidates ++ [c]) ↔
      (m ≤ good_values.length ∧ m ≤ poor_values.length ∧ 3/10 ≤ |delta|)) ∧
    ((m ≤ good_values.length ∧ m ≤ poor_values.length ∧ 3/10 ≤ |delta|) →
      (∃ fg, regGet (add_comparison_candidate window_days provenance st insight_id type_
          title behavior outcome good_values poor_values keys hint).facts
          (("fact_" ++ insight_id ++ "_" ++ natStr window_days ++ "d") ++ "_mean_good") =
          some fg ∧ fg.value = .num mean_good) ∧
      (∃ fp, regGet (add_comparison_candidate window_days provenance st insight_id type_
          title behavior outcome good_values poor_values keys hint).facts
          (("fact_" ++ insight_id ++ "_" ++ natStr window_days ++ "d") ++ "_mean_poor") =
          some fp ∧ fp.value = .num mean_poor) ∧
      (∃ fd, regGet (add_comparison_candidate window_days provenance st insight_id type_
          title behavior outcome good_values poor_values keys hint).facts
          (("fact_" ++ insight_id ++ "_" ++ natStr window_days ++ "d") ++ "_delta") =
          some fd ∧ fd.value = .num delta) ∧
      (∃ c, (add_comparison_candidate window_days provenance st insight_id type_ title
          behavior outcome good_values poor_values keys hint).candidates =
          st.candidates ++ [c] ∧ c.insight_id = insight_id ∧
        c.fact_ids =
          [("fact_" ++ insight_id ++ "_" ++ natStr window_days ++ "d") ++ "_mean_good",
           ("fact_" ++ insight_id ++ "_" ++ natStr window_days ++ "d") ++ "_mean_poor",
           ("fact_" ++ insight_id ++ "_" ++ natStr window_days ++ "d") ++ "_delta"])) ∧
    (¬(m ≤ good_values.length ∧ m ≤ poor_values.length ∧ 3/10 ≤ |delta|) →
      add_comparison_candidate window_days provenance st insight_id type_ title
        behavior outcome good_values poor_values keys hint = st) := by
  intro m mean_good mean_poor delta
  have hgp :
      ("fact_" ++ insight_id ++ "_" ++ natStr window_days ++ "d") ++ "_mean_good" ≠
      ("fact_" ++ insight_id ++ "_" ++ natStr window_days ++ "d") ++ "_mean_poor" :=
    strAppend_ne_of_ne _ (by decide)
  have hgd :
      ("fact_" ++ insight_id ++ "_" ++ natStr window_days ++ "d") ++ "_mean_good" ≠
      ("fact_" ++ insight_id ++ "_" ++ natStr window_days ++ "d") ++ "_delta" :=
    strAppend_ne_of_ne _ (by decide)
  have hpd :
      ("fact_" ++ insight_id ++ "_" ++ natStr window_days ++ "d") ++ "_mean_poor" ≠
      ("fact_" ++ insight_id ++ "_" ++ natStr window_days ++ "d") ++ "_delta" :=
    strAppend_ne_of_ne _ (by decide)
  by_cases hG : m ≤ good_values.length ∧ m ≤ poor_values.length ∧ 3/10 ≤ |delta|
  · obtain ⟨h1, h2, h3⟩ := hG
    have hlen : ¬(good_values.length < m ∨ poor_values.length < m) := by
      push_neg
      exact ⟨h1, h2⟩
    have heff : ¬(|delta| < 3/10) := not_lt.mpr h3
    refine ⟨⟨fun _ => ⟨h1, h2, h3⟩, fun _ => ?_⟩,
      fun _ => ⟨?_, ?_, ?_, ?_⟩, fun hn => absurd ⟨h1, h2, h3⟩ hn⟩ <;>
      simp only [add_comparison_candidate, if_neg hlen, if_neg heff]
    · exact ⟨_, rfl⟩
    · rw [regGet_regSet_ne _ _ hgd, regGet_regSet_ne _ _ hgp, regGet_regSet_self]
      exact ⟨_, rfl, rfl⟩
    · rw [regGet_regSet_ne _ _ hpd, regGet_regSet_self]
      exact ⟨_, rfl, rfl⟩
    · rw [regGet_regSet_self]
      exact ⟨_, rfl, rfl⟩
    · exact ⟨_, rfl, rfl, rfl⟩
  · have hst : add_comparison_candidate window_days provenance st insight_id type_ title
        behavior outcome good_values poor_values keys hint = st := by
      rw [add_comparison_candidate]
      by_cases hlen : good_values.length < m ∨ poor_values.length < m
      · rw [if_pos hlen]
      · rw [if_neg hlen]
        have heff : |delta| < 3/10 := by
          push_neg at hG hlen
          exact hG hlen.1 hlen.2
        rw [if_pos heff]
    refine ⟨⟨fun hc => ?_, fun hg => absurd hg hG⟩, fun hg => absurd hg hG, fun _ => hst⟩
    obtain ⟨c, hc⟩ := hc
    rw [hst] at hc
    have hl := congrArg List.length hc
    simp at hl

/-- C3 witness: with a 7-day window and one sample per bucket the gates
pass (delta 2.0 ≥ 0.3) and a candidate is appended, via `claim_C3`. -/
theorem claim_C3_witness :
    ∃ c, (add_comparison_candidate 7 "prov" ⟨[], []⟩ "screens_sleep" "pattern"
      "Screen timing and sleep quality" "screensOff" "sleepQuality" [4] [2]
      ["screensOff", "sleepQuality"] "hint").candidates = [] ++ [c] := by
  have h := claim_C3 7 "prov" ⟨[], []⟩ "screens_sleep" "pattern"
    "Screen timing and sleep quality" "screensOff" "sleepQuality" [4] [2]
    ["screensOff", "sleepQuality"] "hint"
  exact h.1.mpr (by decide)

/-- C10: beyond the per-fact renderings (the two-decimal rounding of each
numeric fact value, integer-rendered when whole, and its one-decimal
form), the allowed-token set always contains the window length, the log
count and the completion rate rounded to integer percent; consequently a
cited sentence whose only number is the window length passes the strict
grounding check even though no fact in the registry renders that value. -/
theorem claim_C10 :
    (∀ s : InsightStatsPayload,
      natStr s.window_days ∈ _allowed_numeric_tokens s ∧
      natStr s.logs_count ∈ _allowed_numeric_tokens s ∧
      intStr (roundHalfEven (s.completion_rate * 100)) ∈ _allowed_numeric_tokens s) ∧
    (∀ (s : InsightStatsPayload) (p : String × FactDefinition),
      p ∈ s.fact_registry → ∀ t ∈ factNumericTokens p.2,
        t ∈ _allowed_numeric_tokens s) ∧
    ((validate_llm_response respC10 statsC10).valid = true ∧
     "14" ∈ numTokens "Great consistency across 14 days [[cite:fact_y]]." ∧
     statsC10.fact_registry.all
       (fun p => !(factNumericTokens p.2).contains "14") = true) := by
  refine ⟨?_, ?_, by decide⟩
  · intro s
    refine ⟨?_, ?_, ?_⟩ <;> simp [_allowed_numeric_tokens]
  · intro s p hp t ht
    unfold _allowed_numeric_tokens
    rw [List.mem_append]
    right
    exact List.mem_flatMap.mpr ⟨p, hp, ht⟩

/-- C10 witness: both renderings of the fact value 99 are admitted, via
`claim_C10`. -/
theorem claim_C10_witness :
    "99" ∈ _allowed_numeric_tokens statsC10 ∧ "99.0" ∈ _allowed_numeric_tokens statsC10 :=
  ⟨claim_C10.2.1 statsC10 ("fact_y", factNinetyNine "fact_y" "Average morning energy (14d)")
    (by decide) "99" (by decide),
   claim_C10.2.1 statsC10 ("fact_y", factNinetyNine "fact_y" "Average morning energy (14d)")
    (by decide) "99.0" (by decide)⟩

theorem errors_nil_of_valid {r : LLMInsightResponse} {s : InsightStatsPayload}
    (hv : (validate_llm_response r s).valid = true) :
    errorsGo (s.fact_registry.map (fun p => p.1)) (_allowed_numeric_tokens s)
      0 r.insights = [] := by
  unfold validate_llm_response at hv
  exact List.isEmpty_iff.mp hv

theorem draft_has_known_declared_citation {r : LLMInsightResponse}
    {s : InsightStatsPayload} (hv : (validate_llm_response r s).valid = true)
    (d : LLMInsightDraft) (hd : d ∈ r.insights) :
    ∃ fid, fid ∈ d.fact_ids_used ∧ (regGet s.fact_registry fid).isSome := by
  obtain ⟨k, hk⟩ := errorsGo_nil_forall r.insights 0 (errors_nil_of_valid hv) d hd
  obtain ⟨hne, hknown, hdecl⟩ := conditions_of_insightErrors_nil hk
  obtain ⟨id0, hid0⟩ := List.exists_mem_of_ne_nil _ hne
  refine ⟨id0, containsStr_iff.mp (hdecl id0 hid0), ?_⟩
  exact regGet_isSome_of_mem_keys (containsStr_iff.mp (hknown id0 hid0))

/-- C5: when the first generation attempt parses but fails validation,
the orchestrator retries exactly once with the identical payload — the
generator runs exactly twice — and when the second attempt validates and
carries at least one insight the request returns a non-empty insight list
containing an insight with non-empty citations; a generator transport
error on the first attempt triggers no retry. -/
theorem claim_C5 (stats : InsightStatsPayload)
    (gen : ℕ → Except String LLMInsightResponse) (max_insights : ℕ)
    (r1 r2 : LLMInsightResponse) (hm : 1 ≤ max_insights)
    (h1 : gen 1 = .ok r1) (hv1 : (validate_llm_response r1 stats).valid = false)
    (h2 : gen 2 = .ok r2) (hv2 : (validate_llm_response r2 stats).valid = true)
    (hne : r2.insights ≠ []) :
    (orchestrate true true gen stats max_insights).generator_calls = 2 ∧
    (∃ l, (orchestrate true true gen stats max_insights).output = some l ∧ l ≠ [] ∧
      ∃ i ∈ l, ∃ cs, i.citations = some cs ∧ cs ≠ []) ∧
    (∀ (gen2 : ℕ → Except String LLMInsightResponse) (e : String),
      gen2 1 = .error e →
      (orchestrate true true gen2 stats max_insights).generator_calls = 1) := by
  cases hr2 : r2.insights with
  | nil => exact absurd hr2 hne
  | cons d ds =>
  obtain ⟨fid, hfid, hsome⟩ := draft_has_known_declared_citation hv2 d (by rw [hr2]; simp)
  obtain ⟨f, hf⟩ := Option.isSome_iff_exists.mp hsome
  have hcne : d.fact_ids_used.filterMap
      (fun fid => (regGet stats.fact_registry fid).map citationOfFact) ≠ [] := by
    apply List.ne_nil_of_mem (a := citationOfFact f)
    exact List.mem_filterMap.mpr ⟨fid, hfid, by rw [hf]; rfl⟩
  obtain ⟨mi, rfl⟩ : ∃ mi, max_insights = mi + 1 :=
    ⟨max_insights - 1, (Nat.succ_pred_eq_of_pos hm).symm⟩
  have horch : orchestrate true true gen stats (mi + 1) =
      { output := some ((map_to_api_insights r2 stats).take (mi + 1))
        generator_calls := 2 } := by
    unfold orchestrate
    rw [if_neg (by decide)]
    rw [h1]
    simp only [hv1]
    rw [if_neg (by simp)]
    rw [h2]
    simp only [hv2, if_true]
    rw [if_neg ?_]
    unfold map_to_api_insights
    rw [hr2]
    simp
  refine ⟨by rw [horch], ⟨(map_to_api_insights r2 stats).take (mi + 1), by rw [horch],
    ?_, ?_⟩, ?_⟩
  · unfold map_to_api_insights
    rw [hr2]
    simp
  · refine ⟨{ type := d.type
              message := d.message_with_citations
              action := d.action
              citations := some (d.fact_ids_used.filterMap
                (fun fid => (regGet stats.fact_registry fid).map citationOfFact))
              source_metric_keys := some (sortStrs (dedupL ((d.fact_ids_used.filterMap
                (fun fid => (regGet stats.fact_registry fid).map citationOfFact)).flatMap
                (fun c => c.source_metric_keys)))) }, ?_, _, rfl, hcne⟩
    unfold map_to_api_insights
    rw [hr2]
    simp only [List.map_cons, List.take_succ_cons]
    exact List.mem_cons_self _ _
  · intro gen2 e he
    unfold orchestrate
    rw [if_neg (by decide)]
    rw [he]

/-- C5 witness: with a generator whose first draft is an uncited numeric
claim and whose second cites the delta fact, the orchestrator runs the
generator exactly twice, via `claim_C5`. -/
theorem claim_C5_witness :
    (orchestrate true true genC5 statsC5 4).generator_calls = 2 :=
  (claim_C5 statsC5 genC5 4 respUncited respC5good (by decide) rfl (by decide)
    rfl (by decide) (by decide)).1

theorem getD_find?_mem {l : List String} {p : String → Bool} {dflt : String}
    (hd : dflt ∈ l) : (l.find? p).getD dflt ∈ l := by
  cases hf : l.find? p with
  | none => simpa using hd
  | some x =>
    simpa using List.mem_of_find?_eq_some hf

theorem mapM_option_all_some {α β : Type} (f : α → Option β) :
    ∀ l : List α, (∀ a ∈ l, (f a).isSome) →
      ∃ out, l.mapM f = some out ∧ out.length = l.length := by
  intro l
  induction l with
  | nil => exact fun _ => ⟨[], rfl, rfl⟩
  | cons a t ih =>
    intro h
    obtain ⟨b, hb⟩ := Option.isSome_iff_exists.mp (h a (by simp))
    obtain ⟨out, hout, hlen⟩ := ih (fun x hx => h x (by simp [hx]))
    refine ⟨b :: out, ?_, by simp [hlen]⟩
    rw [List.mapM_cons, hb, hout]
    rfl

theorem mapM_option_mem {α β : Type} (f : α → Option β) :
    ∀ (l : List α) (out : List β), l.mapM f = some out →
      ∀ x ∈ out, ∃ a ∈ l, f a = some x := by
  intro l
  induction l with
  | nil =>
    intro out hout x hx
    simp only [List.mapM_nil, Option.pure_def, Option.some.injEq] at hout
    rw [← hout] at hx
    simp at hx
  | cons a t ih =>
    intro out hout x hx
    rw [List.mapM_cons] at hout
    cases hfa : f a with
    | none =>
      rw [hfa] at hout
      simp at hout
    | some b =>
      rw [hfa] at hout
      cases hmt : t.mapM f with
      | none =>
        rw [hmt] at hout
        simp at hout
      | some bs =>
        rw [hmt] at hout
        have hout' : b :: bs = out := by simpa using hout
        rw [← hout'] at hx
        rcases List.mem_cons.mp hx with rfl | hx
        · exact ⟨a, by simp, hfa⟩
        · obtain ⟨a', ha', hfa'⟩ := ih bs hmt x hx
          exact ⟨a', by simp [ha'], hfa'⟩

theorem fallback_candidate_isSome (s : InsightStatsPayload)
    (c : CandidateInsightEvidence)
    (hsh : ∃ a b d3, c.fact_ids = [a, b, d3])
    (hlk : ∀ id ∈ c.fact_ids, (regGet s.fact_registry id).isSome) :
    (fallback_candidate_insight s c).isSome := by
  obtain ⟨a, b, d3, hids⟩ := hsh
  unfold fallback_candidate_insight
  rw [hids]
  have hg : fallback_good_id a [b, d3] ∈ c.fact_ids := by
    rw [hids]
    exact getD_find?_mem (by simp)
  have hp : fallback_poor_id a [b, d3] ∈ c.fact_ids := by
    rw [hids]
    refine getD_find?_mem ?_
    simp [List.getLast]
  obtain ⟨gf, hgf⟩ := Option.isSome_iff_exists.mp (hlk _ hg)
  obtain ⟨pf, hpf⟩ := Option.isSome_iff_exists.mp (hlk _ hp)
  show (fallback_candidate_core s c a [b, d3]).isSome = true
  unfold fallback_candidate_core
  rw [hgf, hpf]
  rfl

theorem add_comparison_cases (wd : ℕ) (prov : String) (st : CompState)
    (iid ty ti be ou : String) (gv pv : List ℚ) (keys : List String) (hint : String) :
    (add_comparison_candidate wd prov st iid ty ti be ou gv pv keys hint = st) ∨
    (∃ kg kp kd vg vp vd c,
      (add_comparison_candidate wd prov st iid ty ti be ou gv pv keys hint).facts =
        regSet (regSet (regSet st.facts kg vg) kp vp) kd vd ∧
      (add_comparison_candidate wd prov st iid ty ti be ou gv pv keys hint).candidates =
        st.candidates ++ [c] ∧
      c.fact_ids = [kg, kp, kd]) := by
  by_cases h1 : gv.length < (if wd ≤ 7 then 1 else 2) ∨
      pv.length < (if wd ≤ 7 then 1 else 2)
  · exact Or.inl (by simp only [add_comparison_candidate, if_pos h1])
  · by_cases h2 : |pyRound (pyRound (_avg gv) 2 - pyRound (_avg pv) 2) 2| < 3/10
    · exact Or.inl (by simp only [add_comparison_candidate, if_neg h1, if_pos h2])
    · right
      simp only [add_comparison_candidate, if_neg h1, if_neg h2]
      exact ⟨_, _, _, _, _, _, _, rfl, rfl, rfl⟩

theorem add_comparison_inv (wd : ℕ) (prov : String) (st : CompState)
    (iid ty ti be ou : String) (gv pv : List ℚ) (keys : List String) (hint : String)
    (h : ∀ c ∈ st.candidates, (∃ a b d3, c.fact_ids = [a, b, d3]) ∧
      ∀ id ∈ c.fact_ids, (regGet st.facts id).isSome) :
    ∀ c ∈ (add_comparison_candidate wd prov st iid ty ti be ou gv pv keys hint).candidates,
      (∃ a b d3, c.fact_ids = [a, b, d3]) ∧
      ∀ id ∈ c.fact_ids,
        (regGet (add_comparison_candidate wd prov st iid ty ti be ou gv pv keys
          hint).facts id).isSome := by
  rcases add_comparison_cases wd prov st iid ty ti be ou gv pv keys hint with
    he | ⟨kg, kp, kd, vg, vp, vd, c0, hf, hc, hids⟩
  · rw [he]
    exact h
  · rw [hf, hc]
    intro c hc'
    rcases List.mem_append.mp hc' with hc' | hc'
    · obtain ⟨hsh, hlk⟩ := h c hc'
      exact ⟨hsh, fun id hid =>
        regGet_regSet_isSome _ _ _ (regGet_regSet_isSome _ _ _
          (regGet_regSet_isSome _ _ _ (hlk id hid)))⟩
    · have hcc : c = c0 := by simpa using hc'
      subst hcc
      refine ⟨⟨kg, kp, kd, hids⟩, ?_⟩
      intro id hid
      rw [hids] at hid
      rcases List.mem_cons.mp hid with hid | hid
      · rw [hid]
        exact regGet_regSet_isSome _ _ _ (regGet_regSet_isSome _ _ _
          (by rw [regGet_regSet_self]; rfl))
      · rcases List.mem_cons.mp hid with hid | hid
        · rw [hid]
          exact regGet_regSet_isSome _ _ _ (by rw [regGet_regSet_self]; rfl)
        · have h3 : id = kd := by simpa using hid
          rw [h3, regGet_regSet_self]
          rfl

theorem builder_candidates_ok (logs : List LogEntry) (w : ℕ) :
    ∀ c ∈ (build_insight_stats_payload logs w).candidate_insights,
      (∃ a b d3, c.fact_ids = [a, b, d3]) ∧
      ∀ id ∈ c.fact_ids,
        (regGet (build_insight_stats_payload logs w).fact_registry id).isSome := by
  by_cases hlogs : logs.isEmpty
  · intro c hc
    unfold build_insight_stats_payload at hc
    rw [if_pos hlogs] at hc
    simp at hc
  · intro c hc
    unfold build_insight_stats_payload at hc ⊢
    rw [if_neg hlogs] at hc ⊢
    simp only at hc ⊢
    have hc' := mem_sortCands (List.take_subset _ _ hc)
    exact (add_comparison_inv _ _ _ _ _ _ _ _ _ _ _ _
      (add_comparison_inv _ _ _ _ _ _ _ _ _ _ _ _
        (add_comparison_inv _ _ _ _ _ _ _ _ _ _ _ _
          (add_comparison_inv _ _ _ _ _ _ _ _ _ _ _ _
            (add_comparison_inv _ _ _ _ _ _ _ _ _ _ _ _
              (add_comparison_inv _ _ _ _ _ _ _ _ _ _ _ _
                (fun c hc => absurd hc (List.not_mem_nil c))))))) c hc')

theorem fallback_safe (s : InsightStatsPayload)
    (h : ∀ c ∈ s.candidate_insights, (∃ a b d3, c.fact_ids = [a, b, d3]) ∧
      ∀ id ∈ c.fact_ids, (regGet s.fact_registry id).isSome) :
    ∃ L, build_deterministic_fallback s 4 = some L ∧ L ≠ [] ∧ L.length ≤ 4 := by
  by_cases hce : s.candidate_insights.isEmpty
  · simp only [build_deterministic_fallback, if_pos hce]
    exact ⟨_, rfl, by simp, by simp⟩
  · obtain ⟨out, hout, hlen⟩ :=
      mapM_option_all_some (fallback_candidate_insight s)
        (s.candidate_insights.take 4)
        (fun c hc =>
          fallback_candidate_isSome s c (h c (List.take_subset _ _ hc)).1
            (h c (List.take_subset _ _ hc)).2)
    refine ⟨out, ?_, ?_, ?_⟩
    · simp only [build_deterministic_fallback, if_neg hce]
      exact hout
    · have hne : s.candidate_insights ≠ [] := by
        simpa [List.isEmpty_iff] using hce
      have hpos := List.length_pos.mpr hne
      intro hnil
      rw [hnil] at hlen
      simp only [List.length_take, List.length_nil] at hlen
      omega
    · rw [hlen, List.length_take]
      exact Nat.min_le_left _ _

theorem orchestrate_output_safe (enabled key_configured : Bool)
    (gen : ℕ → Except String LLMInsightResponse) (s : InsightStatsPayload)
    (h : ∀ c ∈ s.candidate_insights, (∃ a b d3, c.fact_ids = [a, b, d3]) ∧
      ∀ id ∈ c.fact_ids, (regGet s.fact_registry id).isSome) :
    ∃ l, (orchestrate enabled key_configured gen s 4).output = some l ∧
      l ≠ [] ∧ l.length ≤ 4 := by
  obtain ⟨L, hL, hne, hlen⟩ := fallback_safe s h
  have hfb : ∃ l, ((build_deterministic_fallback s 4).map
      (fun l => l.take 4)) = some l ∧ l ≠ [] ∧ l.length ≤ 4 := by
    refine ⟨L.take 4, by rw [hL]; rfl, ?_, ?_⟩
    · simp [List.take_eq_nil_iff, hne]
    · rw [List.length_take]
      exact Nat.min_le_left _ _
  have htake : ∀ (l : List Insight), ¬(l.isEmpty = true) →
      ∃ m, some (l.take 4) = some m ∧ m ≠ [] ∧ m.length ≤ 4 := by
    intro l hl
    refine ⟨l.take 4, rfl, ?_, by rw [List.length_take]; exact Nat.min_le_left _ _⟩
    have : l ≠ [] := by simpa [List.isEmpty_iff] using hl
    simp [List.take_eq_nil_iff, this]
  cases hek : (enabled && key_configured) with
  | false =>
    simp only [orchestrate, hek, Bool.not_false, if_pos rfl]
    exact ⟨[static_unavailable_insight], rfl, by simp, by simp⟩
  | true =>
    cases h1 : gen 1 with
    | error e =>
      simp only [orchestrate, hek, Bool.not_true, Bool.false_eq_true, if_false, h1]
      exact hfb
    | ok r1 =>
      cases h2 : gen 2 with
      | error e2 =>
        simp only [orchestrate, hek, Bool.not_true, Bool.false_eq_true, if_false, h1, h2]
        by_cases hv1 : (validate_llm_response r1 s).valid = true
        · rw [if_pos hv1]
          by_cases hm1 : (map_to_api_insights r1 s).isEmpty = true
          · rw [if_pos hm1]
            exact hfb
          · rw [if_neg hm1]
            exact htake _ hm1
        · rw [if_neg hv1]
          exact hfb
      | ok r2 =>
        simp only [orchestrate, hek, Bool.not_true, Bool.false_eq_true, if_false, h1, h2]
        by_cases hv1 : (validate_llm_response r1 s).valid = true
        · rw [if_pos hv1]
          by_cases hm1 : (map_to_api_insights r1 s).isEmpty = true
          · rw [if_pos hm1]
            exact hfb
          · rw [if_neg hm1]
            exact htake _ hm1
        · rw [if_neg hv1]
          by_cases hv2 : (validate_llm_response r2 s).valid = true
          · rw [if_pos hv2]
            by_cases hm2 : (map_to_api_insights r2 s).isEmpty = true
            · rw [if_pos hm2]
              exact hfb
            · rw [if_neg hm2]
              exact htake _ hm2
          · rw [if_neg hv2]
            exact hfb

/-- C9: for every request — any recent logs, window length, feature flags
and generator behaviour (including transport errors and invalid responses
on both attempts) — the insights endpoint returns an actual list (never
propagates a generator failure), and that list is non-empty and holds at
most the configured maximum of 4 insights. -/
theorem claim_C9 (logs : List LogEntry) (window_days : ℕ)
    (enabled key_configured : Bool)
    (gen : ℕ → Except String LLMInsightResponse) :
    ∃ l, insights_endpoint logs window_days enabled key_configured gen = some l ∧
      l ≠ [] ∧ l.length ≤ 4 := by
  unfold insights_endpoint
  exact orchestrate_output_safe enabled key_configured gen _
    (builder_candidates_ok logs window_days)

/-- C1 (amended): on payloads whose candidates have the three-fact shape
the evidence builder guarantees (fact ids `[good, poor, delta]`, all
present in the registry) and at least one candidate, the deterministic
fallback always succeeds — no candidate ever raises the `KeyError` /
`IndexError` of the loop body — and returns a non-empty list of at most 4
insights, each of which cites only facts of the payload registry: its
citations field is a non-empty list of verbatim copies of registry facts.
The stronger numeric-grounding half of the original claim is refuted by
`claim_C1_counterexample`. -/
theorem claim_C1 (s : InsightStatsPayload)
    (h : ∀ c ∈ s.candidate_insights, (∃ a b d3, c.fact_ids = [a, b, d3]) ∧
      ∀ id ∈ c.fact_ids, (regGet s.fact_registry id).isSome)
    (hne : s.candidate_insights ≠ []) :
    ∃ L, build_deterministic_fallback s 4 = some L ∧ L ≠ [] ∧ L.length ≤ 4 ∧
      ∀ ins ∈ L, ∃ cits, ins.citations = some cits ∧ cits ≠ [] ∧
        ∀ cit ∈ cits, ∃ id f, regGet s.fact_registry id = some f ∧
          cit = citationOfFact f := by
  have hce : ¬ s.candidate_insights.isEmpty := by
    simpa [List.isEmpty_iff] using hne
  obtain ⟨out, hout, hlen⟩ := mapM_option_all_some (fallback_candidate_insight s)
    (s.candidate_insights.take 4)
    (fun c hc => fallback_candidate_isSome s c (h c (List.take_subset _ _ hc)).1
      (h c (List.take_subset _ _ hc)).2)
  refine ⟨out, ?_, ?_, ?_, ?_⟩
  · simp only [build_deterministic_fallback, if_neg hce]
    exact hout
  · have hpos := List.length_pos.mpr hne
    intro hnil
    rw [hnil] at hlen
    simp only [List.length_take, List.length_nil] at hlen
    omega
  · rw [hlen, List.length_take]
    exact Nat.min_le_left _ _
  · intro ins hins
    obtain ⟨c, hcmem, hcs⟩ :=
      mapM_option_mem (fallback_candidate_insight s) _ _ hout ins hins
    obtain ⟨⟨a, b, d3, hids⟩, hlk⟩ := h c (List.take_subset _ _ hcmem)
    have hcs' : fallback_candidate_core s c a [b, d3] = some ins := by
      rw [← hcs]
      unfold fallback_candidate_insight
      rw [hids]
    have hg : fallback_good_id a [b, d3] ∈ c.fact_ids := by
      rw [hids]
      exact getD_find?_mem (by simp)
    have hp : fallback_poor_id a [b, d3] ∈ c.fact_ids := by
      rw [hids]
      refine getD_find?_mem ?_
      simp [List.getLast]
    obtain ⟨gf, hgf⟩ := Option.isSome_iff_exists.mp (hlk _ hg)
    obtain ⟨pf, hpf⟩ := Option.isSome_iff_exists.mp (hlk _ hp)
    unfold fallback_candidate_core at hcs'
    rw [hgf, hpf] at hcs'
    have hins_eq := (Option.some.inj hcs').symm
    refine ⟨[fallback_good_id a [b, d3], fallback_poor_id a [b, d3],
             fallback_delta_id a [b, d3]].filterMap
              (fun fid => (regGet s.fact_registry fid).map citationOfFact),
            ?_, ?_, ?_⟩
    · rw [hins_eq]
    · have hmem : citationOfFact gf ∈
          [fallback_good_id a [b, d3], fallback_poor_id a [b, d3],
           fallback_delta_id a [b, d3]].filterMap
            (fun fid => (regGet s.fact_registry fid).map citationOfFact) :=
        List.mem_filterMap.mpr
          ⟨fallback_good_id a [b, d3], by simp, by rw [hgf]; rfl⟩
      exact List.ne_nil_of_mem hmem
    · intro cit hcit
      obtain ⟨fid, hfid, hmap⟩ := List.mem_filterMap.mp hcit
      cases hre : regGet s.fact_registry fid with
      | none =>
        rw [hre] at hmap
        exact absurd hmap (by simp)
      | some f =>
        rw [hre] at hmap
        exact ⟨fid, f, hre, (Option.some.inj hmap).symm⟩

/-- C1 witness: the builder payload of `logsC1` (one screens-vs-sleep
candidate) satisfies the hypotheses, and the fallback on it yields a
non-empty, fully registry-cited insight list. -/
theorem claim_C1_witness :
    (∀ c ∈ statsC1.candidate_insights, (∃ a b d3, c.fact_ids = [a, b, d3]) ∧
      ∀ id ∈ c.fact_ids, (regGet statsC1.fact_registry id).isSome) ∧
    statsC1.candidate_insights ≠ [] ∧
    (∃ L, build_deterministic_fallback statsC1 4 = some L ∧ L ≠ [] ∧ L.length ≤ 4 ∧
      ∀ ins ∈ L, ∃ cits, ins.citations = some cits ∧ cits ≠ [] ∧
        ∀ cit ∈ cits, ∃ id f, regGet statsC1.fact_registry id = some f ∧
          cit = citationOfFact f) :=
  ⟨builder_candidates_ok logsC1 7, by decide,
   claim_C1 statsC1 (builder_candidates_ok logsC1 7) (by decide)⟩

/-- C1 counterexample: it is not true that every fallback insight obeys the
validator rules — on the builder payload of `logsC1` the produced message
embeds the candidate summary, whose two-decimal tokens ("4.00", "2.00",
"+2.00") match no allowed numeric token of the registry, even though the
payload has a candidate and the fallback succeeds. -/
theorem claim_C1_counterexample :
    ¬ (∀ (s : InsightStatsPayload), s.candidate_insights ≠ [] →
        ∀ L, build_deterministic_fallback s 4 = some L →
          ∀ ins ∈ L,
            (∀ tok ∈ numTokens ins.message,
              ((_allowed_numeric_tokens s).contains
                (_normalize_numeric_token tok)) = true) ∧
            (∀ sentence ∈ splitSentences ins.message, hasNum sentence = true →
              ∃ id ∈ citeIds sentence, (regGet s.fact_registry id).isSome)) := by
  intro hclaim
  have hne : statsC1.candidate_insights ≠ [] := by decide
  have hsome : (build_deterministic_fallback statsC1 4).isSome = true := by decide
  obtain ⟨L, hL⟩ := Option.isSome_iff_exists.mp hsome
  have hbad : ((build_deterministic_fallback statsC1 4).getD []).any (fun ins =>
      (numTokens ins.message).any (fun tok =>
        !((_allowed_numeric_tokens statsC1).contains
          (_normalize_numeric_token tok)))) = true := by
    decide
  rw [hL] at hbad
  simp only [Option.getD_some, List.any_eq_true] at hbad
  obtain ⟨ins, hins, tok, htok, hnc⟩ := hbad
  have hground := (hclaim statsC1 hne L hL ins hins).1 tok htok
  rw [hground] at hnc
  exact absurd hnc (by simp)

end Clarity

namespace Clarity

/-! ## Claims -/

/-- C2: for every generator response and payload, if some insight's message
splits into a sentence carrying a numeric token but no citation marker,
then `validate_llm_response` returns `valid = false` and its error list
contains the "uncited numeric sentence" error naming that insight's
index. -/
theorem claim_C2 (r : LLMInsightResponse) (s : InsightStatsPayload) (idx : ℕ)
    (d : LLMInsightDraft) (sentence : String)
    (hg : r.insights.get? idx = some d)
    (hs : sentence ∈ splitSentences d.message_with_citations)
    (h1 : hasNum sentence = true) (h2 : hasCite sentence = false) :
    (validate_llm_response r s).valid = false ∧
    ("insights[" ++ natStr idx ++ "] has uncited numeric sentence")
      ∈ (validate_llm_response r s).errors := by
  refine validate_false_of_mem (mem_errorsGo r.insights 0 idx d hg ?_)
  rw [Nat.zero_add]
  exact sentence_mem_insightErrors (uncited_mem_sentenceErrors hs h1 h2)

/-- C2 witness: the uncited draft "Your sleep improved by 1.2 points." is
rejected with the expected error. -/
theorem claim_C2_witness :
    (validate_llm_response respUncited emptyStats).valid = false ∧
    ("insights[" ++ natStr 0 ++ "] has uncited numeric sentence")
      ∈ (validate_llm_response respUncited emptyStats).errors :=
  claim_C2 respUncited emptyStats 0
    { type := "pattern"
      message_with_citations := "Your sleep improved by 1.2 points."
      action := some "Keep it up."
      fact_ids_used := [] }
    "Your sleep improved by 1.2 points."
    (by decide) (by decide) (by decide) (by decide)

end Clarity
